import Mathlib

/-!
Verification development for the scc C front end (src/scanner.c, src/parser.c):
a shallow embedding of the scanner, the grammar tables, the FIRST-set
computation, the LR(1) state machine generator, the parse-table projector and
the shift/reduce driver, with theorems about the properties the specification
states for them.

Conventions of the embedding:
  * C enum values become Nat constants.  The enum `astnode_t` lives in
    parser.h, which is not among the repository files; its exact numbering is
    modelled from the spec, which mandates only the partition
    "value < AST_INVALID iff terminal" and one symbol per token kind /
    production head.  No theorem below depends on the order within the
    terminal block or within the non-terminal block.
  * C linked lists (struct listnode) become Lean lists; list_append appends at
    the tail and list_prepend at the head, as the driver's uses force
    (the token stream is consumed in scan order, the stack top is the most
    recently prepended entry).
  * Unbounded C loops and recursions become fuel-indexed functions returning
    Option; `none` is fuel exhaustion.
  * Undefined behaviour (reading uninitialized memory, dereferencing a null
    list node) is a distinguished Option/constructor value, never a default.
-/

namespace Scc

/-- Token kinds, from scanner.h as used by scanner.c and parser.c. -/
inductive Tok where
  | TOK_IDENTIFIER
  | TOK_INTEGER
  | TOK_STRING
  | TOK_SINGLEQUOTE
  | TOK_LPAREN
  | TOK_RPAREN
  | TOK_LBRACKET
  | TOK_RBRACKET
  | TOK_LBRACE
  | TOK_RBRACE
  | TOK_SEMICOLON
  | TOK_EQUAL
  | TOK_EQ
  | TOK_BANG
  | TOK_NEQ
  | TOK_PLUS
  | TOK_PLUS_PLUS
  | TOK_PLUS_EQUAL
  | TOK_MINUS
  | TOK_MINUS_MINUS
  | TOK_MINUS_EQUAL
  | TOK_ARROW
  | TOK_ASTERISK
  | TOK_ASTERISK_EQUAL
  | TOK_AMPERSAND
  | TOK_AMPERSAND_AMPERSAND
  | TOK_BACKSLASH
  | TOK_BACKSLASH_EQUAL
  | TOK_MOD
  | TOK_MOD_EQUAL
  | TOK_SHIFTLEFT
  | TOK_SHIFTRIGHT
  | TOK_LESSTHAN
  | TOK_LESSTHANEQUAL
  | TOK_GREATERTHAN
  | TOK_GREATERTHANEQUAL
  | TOK_CARET
  | TOK_COMMA
  | TOK_QUESTIONMARK
  | TOK_COLON
  | TOK_VERTICALBAR
  | TOK_VERTICALBAR_VERTICALBAR
  | TOK_DOT
  | TOK_ELLIPSIS
  | TOK_VOID
  | TOK_CHAR
  | TOK_SHORT
  | TOK_INT
  | TOK_LONG
  | TOK_FLOAT
  | TOK_DOUBLE
  | TOK_SIGNED
  | TOK_UNSIGNED
  | TOK_GOTO
  | TOK_CONTINUE
  | TOK_BREAK
  | TOK_RETURN
  | TOK_FOR
  | TOK_DO
  | TOK_WHILE
  | TOK_IF
  | TOK_ELSE
  | TOK_SWITCH
  | TOK_CASE
  | TOK_DEFAULT
  | TOK_ENUM
  | TOK_STRUCT
  | TOK_UNION
  | TOK_CONST
  | TOK_VOLATILE
  | TOK_AUTO
  | TOK_REGISTER
  | TOK_STATIC
  | TOK_EXTERN_KW
  | TOK_TYPEDEF
  | TOK_EOF
  deriving DecidableEq, Repr

/-- struct token: a kind and the optional lexeme payload.  The C leaves
`value` uninitialized for kinds whose branch does not set it; those are
modelled as `none`. -/
structure Token where
  type : Tok
  value : Option (List Char)
  deriving DecidableEq, Repr

/-! ### The symbol enum astnode_t

One Nat per enum value.  Terminals first (one per token kind appearing in
the grammar or the adapter), then the sentinel AST_INVALID, then the
non-terminals (one per production head).  Modelled from the spec:
parser.h is not among the repository files; the spec mandates the partition;
the numbering within the two blocks is arbitrary and unused. -/

def AST_IDENTIFIER : Nat := 0
def AST_INTEGER_CONSTANT : Nat := 1
def AST_CHARACTER_CONSTANT : Nat := 2
def AST_PLUS : Nat := 3
def AST_PLUS_PLUS : Nat := 4
def AST_PLUS_EQUAL : Nat := 5
def AST_MINUS : Nat := 6
def AST_MINUS_MINUS : Nat := 7
def AST_MINUS_EQUAL : Nat := 8
def AST_ARROW : Nat := 9
def AST_AMPERSAND : Nat := 10
def AST_AMPERSAND_AMPERSAND : Nat := 11
def AST_ASTERISK : Nat := 12
def AST_ASTERISK_EQUAL : Nat := 13
def AST_BACKSLASH : Nat := 14
def AST_BACKSLASH_EQUAL : Nat := 15
def AST_MOD : Nat := 16
def AST_MOD_EQUAL : Nat := 17
def AST_CARET : Nat := 18
def AST_COMMA : Nat := 19
def AST_ELLIPSIS : Nat := 20
def AST_QUESTIONMARK : Nat := 21
def AST_COLON : Nat := 22
def AST_SEMICOLON : Nat := 23
def AST_LPAREN : Nat := 24
def AST_RPAREN : Nat := 25
def AST_LBRACKET : Nat := 26
def AST_RBRACKET : Nat := 27
def AST_LBRACE : Nat := 28
def AST_RBRACE : Nat := 29
def AST_VERTICALBAR : Nat := 30
def AST_VERTICALBAR_VERTICALBAR : Nat := 31
def AST_SHIFTLEFT : Nat := 32
def AST_SHIFTRIGHT : Nat := 33
def AST_LT : Nat := 34
def AST_GT : Nat := 35
def AST_LTEQ : Nat := 36
def AST_GTEQ : Nat := 37
def AST_EQ : Nat := 38
def AST_NEQ : Nat := 39
def AST_EQUAL : Nat := 40
def AST_VOID : Nat := 41
def AST_CHAR : Nat := 42
def AST_SHORT : Nat := 43
def AST_INT : Nat := 44
def AST_LONG : Nat := 45
def AST_FLOAT : Nat := 46
def AST_DOUBLE : Nat := 47
def AST_SIGNED : Nat := 48
def AST_UNSIGNED : Nat := 49
def AST_AUTO : Nat := 50
def AST_REGISTER : Nat := 51
def AST_STATIC : Nat := 52
def AST_EXTERN_KW : Nat := 53
def AST_TYPEDEF : Nat := 54
def AST_CONST : Nat := 55
def AST_VOLATILE : Nat := 56
def AST_STRUCT : Nat := 57
def AST_UNION : Nat := 58
def AST_ENUM : Nat := 59
def AST_IF : Nat := 60
def AST_ELSE : Nat := 61
def AST_SWITCH : Nat := 62
def AST_CASE : Nat := 63
def AST_DEFAULT : Nat := 64
def AST_FOR : Nat := 65
def AST_DO : Nat := 66
def AST_WHILE : Nat := 67
def AST_GOTO : Nat := 68
def AST_CONTINUE : Nat := 69
def AST_BREAK : Nat := 70
def AST_RETURN : Nat := 71

/-- The sentinel separating terminals from non-terminals.  Its column in the
parse table doubles as the end-of-input column. -/
def AST_INVALID : Nat := 72

def AST_TRANSLATION_UNIT : Nat := 73
def AST_EXTERNAL_DECLARATION : Nat := 74
def AST_FUNCTION_DEFINITION : Nat := 75
def AST_DECLARATION : Nat := 76
def AST_DECLARATION_LIST : Nat := 77
def AST_DECLARATION_SPECIFIERS : Nat := 78
def AST_STORAGE_CLASS_SPECIFIER : Nat := 79
def AST_TYPE_SPECIFIER : Nat := 80
def AST_TYPE_QUALIFIER : Nat := 81
def AST_STRUCT_OR_UNION_SPECIFIER : Nat := 82
def AST_STRUCT_OR_UNION : Nat := 83
def AST_STRUCT_DECLARATION_LIST : Nat := 84
def AST_INIT_DECLARATOR_LIST : Nat := 85
def AST_INIT_DECLARATOR : Nat := 86
def AST_STRUCT_DECLARATION : Nat := 87
def AST_SPECIFIER_QUALIFIER_LIST : Nat := 88
def AST_STRUCT_DECLARATOR : Nat := 89
def AST_ENUM_SPECIFIER : Nat := 90
def AST_ENUMERATOR_LIST : Nat := 91
def AST_ENUMERATOR : Nat := 92
def AST_DECLARATOR : Nat := 93
def AST_DIRECT_DECLARATOR : Nat := 94
def AST_POINTER : Nat := 95
def AST_TYPE_QUALIFIER_LIST : Nat := 96
def AST_PARAMETER_TYPE_LIST : Nat := 97
def AST_PARAMETER_LIST : Nat := 98
def AST_PARAMETER_DECLARATION : Nat := 99
def AST_IDENTIFIER_LIST : Nat := 100
def AST_INITIALIZER : Nat := 101
def AST_INITIALIZER_LIST : Nat := 102
def AST_TYPE_NAME : Nat := 103
def AST_ABSTRACT_DECLARATOR : Nat := 104
def AST_DIRECT_ABSTRACT_DECLARATOR : Nat := 105
def AST_STATEMENT : Nat := 106
def AST_LABELED_STATEMENT : Nat := 107
def AST_EXPRESSION_STATEMENT : Nat := 108
def AST_COMPOUND_STATEMENT : Nat := 109
def AST_STATEMENT_LIST : Nat := 110
def AST_SELECTION_STATEMENT : Nat := 111
def AST_ITERATION_STATEMENT : Nat := 112
def AST_JUMP_STATEMENT : Nat := 113
def AST_EXPRESSION : Nat := 114
def AST_ASSIGNMENT_EXPRESSION : Nat := 115
def AST_CONSTANT_EXPRESSION : Nat := 116
def AST_CONDITIONAL_EXPRESSION : Nat := 117
def AST_LOGICAL_OR_EXPRESSION : Nat := 118
def AST_LOGICAL_AND_EXPRESSION : Nat := 119
def AST_INCLUSIVE_OR_EXPRESSION : Nat := 120
def AST_EXCLUSIVE_OR_EXPRESSION : Nat := 121
def AST_AND_EXPRESSION : Nat := 122
def AST_EQUALITY_EXPRESSION : Nat := 123
def AST_RELATIONAL_EXPRESSION : Nat := 124
def AST_SHIFT_EXPRESSION : Nat := 125
def AST_ADDITIVE_EXPRESSION : Nat := 126
def AST_MULTIPLICATIVE_EXPRESSION : Nat := 127
def AST_CAST_EXPRESSION : Nat := 128
def AST_UNARY_EXPRESSION : Nat := 129
def AST_POSTFIX_EXPRESSION : Nat := 130
def AST_PRIMARY_EXPRESSION : Nat := 131
def AST_CONSTANT : Nat := 132
def AST_TYPEDEF_NAME : Nat := 133

/-- Number of enum values: the dense parse-table row width.  Modelled from
the spec (parser.h is absent): one column per symbol. -/
def NUM_SYMBOLS : Nat := 134

/-- The INDEX macro of parser.h is absent from the repository files.
Modelled from the spec: init_parsetable addresses reduce cells by the raw
enum value (`row + lookahead`, `row + AST_INVALID`), so INDEX must be the
identity for the driver's `row + INDEX(node->type)` to agree with it. -/
def INDEX (n : Nat) : Nat := n

/-- struct rule: a production head and its body (the C stores the body as a
fixed array plus `length_of_nodes`; the list length plays that role). -/
structure rule where
  type : Nat
  nodes : List Nat
  deriving DecidableEq, Repr

def NUM_RULES : Nat := 199

/-- The grammar table of parser.c, transcribed rule for rule in order (the
position in this list is the rule's identity, matching the C's pointers into
the static array). -/
def grammar_part0 : List rule := [
  ⟨AST_TRANSLATION_UNIT, [AST_EXTERNAL_DECLARATION]⟩,
  ⟨AST_TRANSLATION_UNIT, [AST_TRANSLATION_UNIT, AST_EXTERNAL_DECLARATION]⟩,
  ⟨AST_EXTERNAL_DECLARATION, [AST_FUNCTION_DEFINITION]⟩,
  ⟨AST_EXTERNAL_DECLARATION, [AST_DECLARATION]⟩,
  ⟨AST_FUNCTION_DEFINITION, [AST_DECLARATOR, AST_COMPOUND_STATEMENT]⟩,
  ⟨AST_FUNCTION_DEFINITION, [AST_DECLARATION_SPECIFIERS, AST_DECLARATOR, AST_COMPOUND_STATEMENT]⟩,
  ⟨AST_FUNCTION_DEFINITION, [AST_DECLARATOR, AST_DECLARATION_LIST, AST_COMPOUND_STATEMENT]⟩,
  ⟨AST_FUNCTION_DEFINITION, [AST_DECLARATION_SPECIFIERS, AST_DECLARATOR, AST_DECLARATION_LIST, AST_COMPOUND_STATEMENT]⟩,
  ⟨AST_DECLARATION, [AST_DECLARATION_SPECIFIERS, AST_SEMICOLON]⟩,
  ⟨AST_DECLARATION, [AST_DECLARATION_SPECIFIERS, AST_INIT_DECLARATOR_LIST, AST_SEMICOLON]⟩,
  ⟨AST_DECLARATION_LIST, [AST_DECLARATION]⟩,
  ⟨AST_DECLARATION_LIST, [AST_DECLARATION_LIST, AST_DECLARATION]⟩,
  ⟨AST_DECLARATION_SPECIFIERS, [AST_STORAGE_CLASS_SPECIFIER]⟩,
  ⟨AST_DECLARATION_SPECIFIERS, [AST_STORAGE_CLASS_SPECIFIER, AST_DECLARATION_SPECIFIERS]⟩,
  ⟨AST_DECLARATION_SPECIFIERS, [AST_TYPE_SPECIFIER]⟩,
  ⟨AST_DECLARATION_SPECIFIERS, [AST_TYPE_SPECIFIER, AST_DECLARATION_SPECIFIERS]⟩,
  ⟨AST_DECLARATION_SPECIFIERS, [AST_TYPE_QUALIFIER]⟩,
  ⟨AST_DECLARATION_SPECIFIERS, [AST_TYPE_QUALIFIER, AST_DECLARATION_SPECIFIERS]⟩,
  ⟨AST_STORAGE_CLASS_SPECIFIER, [AST_AUTO]⟩,
  ⟨AST_STORAGE_CLASS_SPECIFIER, [AST_REGISTER]⟩,
  ⟨AST_STORAGE_CLASS_SPECIFIER, [AST_STATIC]⟩,
  ⟨AST_STORAGE_CLASS_SPECIFIER, [ AST_EXTERN_KW]⟩,
  ⟨AST_STORAGE_CLASS_SPECIFIER, [AST_TYPEDEF]⟩,
  ⟨AST_TYPE_SPECIFIER, [AST_VOID]⟩,
  ⟨AST_TYPE_SPECIFIER, [AST_CHAR]⟩,
  ⟨AST_TYPE_SPECIFIER, [AST_SHORT]⟩,
  ⟨AST_TYPE_SPECIFIER, [AST_INT]⟩,
  ⟨AST_TYPE_SPECIFIER, [AST_LONG]⟩,
  ⟨AST_TYPE_SPECIFIER, [AST_FLOAT]⟩,
  ⟨AST_TYPE_SPECIFIER, [AST_DOUBLE]⟩,
  ⟨AST_TYPE_SPECIFIER, [AST_SIGNED]⟩,
  ⟨AST_TYPE_SPECIFIER, [AST_UNSIGNED]⟩,
  ⟨AST_TYPE_SPECIFIER, [AST_STRUCT_OR_UNION_SPECIFIER]⟩,
  ⟨AST_TYPE_SPECIFIER, [AST_ENUM_SPECIFIER]⟩,
  ⟨AST_TYPE_SPECIFIER, [AST_TYPEDEF_NAME]⟩,
  ⟨AST_TYPE_QUALIFIER, [AST_CONST]⟩,
  ⟨AST_TYPE_QUALIFIER, [AST_VOLATILE]⟩,
  ⟨AST_STRUCT_OR_UNION_SPECIFIER, [AST_STRUCT_OR_UNION, AST_LBRACE, AST_STRUCT_DECLARATION_LIST, AST_RBRACE]⟩,
  ⟨AST_STRUCT_OR_UNION_SPECIFIER, [AST_STRUCT_OR_UNION, AST_IDENTIFIER, AST_LBRACE, AST_STRUCT_DECLARATION_LIST, AST_RBRACE]⟩,
  ⟨AST_STRUCT_OR_UNION_SPECIFIER, [AST_STRUCT_OR_UNION, AST_IDENTIFIER]⟩,
  ⟨AST_STRUCT_OR_UNION, [AST_STRUCT]⟩,
  ⟨AST_STRUCT_OR_UNION, [AST_UNION]⟩,
  ⟨AST_STRUCT_DECLARATION_LIST, [AST_STRUCT_DECLARATION]⟩,
  ⟨AST_STRUCT_DECLARATION_LIST, [AST_STRUCT_DECLARATION_LIST, AST_STRUCT_DECLARATION]⟩,
  ⟨AST_INIT_DECLARATOR_LIST, [AST_INIT_DECLARATOR]⟩,
  ⟨AST_INIT_DECLARATOR_LIST, [AST_INIT_DECLARATOR_LIST, AST_COMMA, AST_INIT_DECLARATOR]⟩,
  ⟨AST_INIT_DECLARATOR, [AST_DECLARATOR]⟩,
  ⟨AST_INIT_DECLARATOR, [AST_DECLARATOR, AST_EQUAL, AST_INITIALIZER]⟩,
  ⟨AST_STRUCT_DECLARATION, [AST_SPECIFIER_QUALIFIER_LIST, AST_STRUCT_DECLARATION_LIST, AST_SEMICOLON]⟩,
  ⟨AST_SPECIFIER_QUALIFIER_LIST, [AST_TYPE_SPECIFIER]⟩]

def grammar_part1 : List rule := [
  ⟨AST_SPECIFIER_QUALIFIER_LIST, [AST_TYPE_SPECIFIER, AST_SPECIFIER_QUALIFIER_LIST]⟩,
  ⟨AST_SPECIFIER_QUALIFIER_LIST, [AST_TYPE_QUALIFIER]⟩,
  ⟨AST_SPECIFIER_QUALIFIER_LIST, [AST_TYPE_QUALIFIER, AST_SPECIFIER_QUALIFIER_LIST]⟩,
  ⟨AST_STRUCT_DECLARATION_LIST, [AST_STRUCT_DECLARATOR]⟩,
  ⟨AST_STRUCT_DECLARATION_LIST, [AST_STRUCT_DECLARATION_LIST, AST_COMMA, AST_STRUCT_DECLARATOR]⟩,
  ⟨AST_STRUCT_DECLARATOR, [AST_DECLARATOR]⟩,
  ⟨AST_STRUCT_DECLARATOR, [AST_COLON, AST_CONSTANT_EXPRESSION]⟩,
  ⟨AST_STRUCT_DECLARATOR, [AST_DECLARATOR, AST_COLON, AST_CONSTANT_EXPRESSION]⟩,
  ⟨AST_ENUM_SPECIFIER, [AST_ENUM, AST_IDENTIFIER]⟩,
  ⟨AST_ENUM_SPECIFIER, [AST_ENUM, AST_LBRACE, AST_ENUMERATOR_LIST, AST_RBRACKET]⟩,
  ⟨AST_ENUM_SPECIFIER, [AST_ENUM, AST_IDENTIFIER, AST_LBRACE, AST_ENUMERATOR_LIST, AST_RBRACKET]⟩,
  ⟨AST_ENUMERATOR_LIST, [AST_ENUMERATOR]⟩,
  ⟨AST_ENUMERATOR_LIST, [AST_ENUMERATOR_LIST, AST_COMMA, AST_ENUMERATOR]⟩,
  ⟨AST_ENUMERATOR, [AST_IDENTIFIER]⟩,
  ⟨AST_ENUMERATOR, [AST_IDENTIFIER, AST_EQUAL, AST_CONSTANT_EXPRESSION]⟩,
  ⟨AST_DECLARATOR, [AST_DIRECT_DECLARATOR]⟩,
  ⟨AST_DECLARATOR, [AST_POINTER, AST_DIRECT_DECLARATOR]⟩,
  ⟨AST_DIRECT_DECLARATOR, [AST_IDENTIFIER]⟩,
  ⟨AST_DIRECT_DECLARATOR, [AST_LPAREN, AST_DECLARATOR, AST_RPAREN]⟩,
  ⟨AST_DIRECT_DECLARATOR, [AST_DIRECT_DECLARATOR, AST_LBRACKET, AST_RBRACKET]⟩,
  ⟨AST_DIRECT_DECLARATOR, [AST_DIRECT_DECLARATOR, AST_LBRACKET, AST_CONSTANT_EXPRESSION, AST_RBRACKET]⟩,
  ⟨AST_DIRECT_DECLARATOR, [AST_DIRECT_DECLARATOR, AST_LPAREN, AST_RPAREN]⟩,
  ⟨AST_DIRECT_DECLARATOR, [AST_DIRECT_DECLARATOR, AST_LPAREN, AST_PARAMETER_TYPE_LIST, AST_RPAREN]⟩,
  ⟨AST_DIRECT_DECLARATOR, [AST_DIRECT_DECLARATOR, AST_LPAREN, AST_IDENTIFIER_LIST, AST_RPAREN]⟩,
  ⟨AST_POINTER, [AST_ASTERISK]⟩,
  ⟨AST_POINTER, [AST_ASTERISK, AST_TYPE_QUALIFIER_LIST]⟩,
  ⟨AST_POINTER, [AST_ASTERISK, AST_POINTER]⟩,
  ⟨AST_POINTER, [AST_ASTERISK, AST_TYPE_QUALIFIER_LIST, AST_POINTER]⟩,
  ⟨AST_TYPE_QUALIFIER_LIST, [AST_TYPE_QUALIFIER]⟩,
  ⟨AST_TYPE_QUALIFIER_LIST, [AST_TYPE_QUALIFIER_LIST, AST_TYPE_QUALIFIER]⟩,
  ⟨AST_PARAMETER_TYPE_LIST, [AST_PARAMETER_LIST]⟩,
  ⟨AST_PARAMETER_TYPE_LIST, [AST_PARAMETER_LIST, AST_COMMA, AST_ELLIPSIS]⟩,
  ⟨AST_PARAMETER_LIST, [AST_PARAMETER_DECLARATION]⟩,
  ⟨AST_PARAMETER_LIST, [AST_PARAMETER_LIST, AST_COMMA, AST_PARAMETER_DECLARATION]⟩,
  ⟨AST_PARAMETER_DECLARATION, [AST_DECLARATION_SPECIFIERS, AST_DECLARATOR]⟩,
  ⟨AST_PARAMETER_DECLARATION, [AST_DECLARATION_SPECIFIERS, AST_ABSTRACT_DECLARATOR]⟩,
  ⟨AST_PARAMETER_DECLARATION, [AST_DECLARATION_SPECIFIERS]⟩,
  ⟨AST_IDENTIFIER_LIST, [AST_IDENTIFIER]⟩,
  ⟨AST_IDENTIFIER_LIST, [AST_IDENTIFIER_LIST, AST_COMMA, AST_IDENTIFIER]⟩,
  ⟨AST_INITIALIZER, [AST_ASSIGNMENT_EXPRESSION]⟩,
  ⟨AST_INITIALIZER, [AST_LBRACE, AST_INITIALIZER_LIST, AST_RBRACE]⟩,
  ⟨AST_INITIALIZER, [AST_LBRACE, AST_INITIALIZER_LIST, AST_COMMA, AST_RBRACE]⟩,
  ⟨AST_INITIALIZER_LIST, [AST_INITIALIZER]⟩,
  ⟨AST_INITIALIZER_LIST, [AST_INITIALIZER_LIST, AST_COMMA, AST_INITIALIZER]⟩,
  ⟨AST_TYPE_NAME, [AST_SPECIFIER_QUALIFIER_LIST]⟩,
  ⟨AST_ABSTRACT_DECLARATOR, [AST_SPECIFIER_QUALIFIER_LIST, AST_ABSTRACT_DECLARATOR]⟩,
  ⟨AST_ABSTRACT_DECLARATOR, [AST_POINTER]⟩,
  ⟨AST_ABSTRACT_DECLARATOR, [AST_DIRECT_ABSTRACT_DECLARATOR]⟩,
  ⟨AST_ABSTRACT_DECLARATOR, [AST_POINTER, AST_DIRECT_ABSTRACT_DECLARATOR]⟩,
  ⟨AST_DIRECT_ABSTRACT_DECLARATOR, [AST_LPAREN, AST_ABSTRACT_DECLARATOR, AST_RPAREN]⟩]

def grammar_part2 : List rule := [
  ⟨AST_DIRECT_ABSTRACT_DECLARATOR, [AST_LBRACKET, AST_RBRACKET]⟩,
  ⟨AST_DIRECT_ABSTRACT_DECLARATOR, [AST_DIRECT_ABSTRACT_DECLARATOR, AST_LBRACKET, AST_RBRACKET]⟩,
  ⟨AST_DIRECT_ABSTRACT_DECLARATOR, [AST_LBRACKET, AST_CONSTANT_EXPRESSION, AST_RBRACKET]⟩,
  ⟨AST_DIRECT_ABSTRACT_DECLARATOR, [AST_DIRECT_ABSTRACT_DECLARATOR, AST_LBRACKET, AST_CONSTANT_EXPRESSION, AST_RBRACKET]⟩,
  ⟨AST_DIRECT_ABSTRACT_DECLARATOR, [AST_LPAREN, AST_RPAREN]⟩,
  ⟨AST_DIRECT_ABSTRACT_DECLARATOR, [AST_DIRECT_ABSTRACT_DECLARATOR, AST_LPAREN, AST_RPAREN]⟩,
  ⟨AST_DIRECT_ABSTRACT_DECLARATOR, [AST_LPAREN, AST_PARAMETER_TYPE_LIST, AST_RPAREN]⟩,
  ⟨AST_DIRECT_ABSTRACT_DECLARATOR, [AST_DIRECT_ABSTRACT_DECLARATOR, AST_LPAREN, AST_PARAMETER_TYPE_LIST, AST_RPAREN]⟩,
  ⟨AST_STATEMENT, [AST_LABELED_STATEMENT]⟩,
  ⟨AST_STATEMENT, [AST_EXPRESSION_STATEMENT]⟩,
  ⟨AST_STATEMENT, [AST_COMPOUND_STATEMENT]⟩,
  ⟨AST_STATEMENT, [AST_SELECTION_STATEMENT]⟩,
  ⟨AST_STATEMENT, [AST_ITERATION_STATEMENT]⟩,
  ⟨AST_STATEMENT, [AST_JUMP_STATEMENT]⟩,
  ⟨AST_LABELED_STATEMENT, [AST_IDENTIFIER, AST_COLON, AST_STATEMENT]⟩,
  ⟨AST_LABELED_STATEMENT, [AST_CASE, AST_CONSTANT_EXPRESSION, AST_COLON, AST_STATEMENT]⟩,
  ⟨AST_LABELED_STATEMENT, [AST_DEFAULT, AST_COLON, AST_STATEMENT]⟩,
  ⟨AST_EXPRESSION_STATEMENT, [AST_SEMICOLON]⟩,
  ⟨AST_EXPRESSION_STATEMENT, [AST_EXPRESSION, AST_SEMICOLON]⟩,
  ⟨AST_COMPOUND_STATEMENT, [AST_LBRACE, AST_RBRACE]⟩,
  ⟨AST_COMPOUND_STATEMENT, [AST_LBRACE, AST_DECLARATION_LIST, AST_RBRACE]⟩,
  ⟨AST_COMPOUND_STATEMENT, [AST_LBRACE, AST_STATEMENT_LIST, AST_RBRACE]⟩,
  ⟨AST_COMPOUND_STATEMENT, [AST_LBRACE, AST_DECLARATION_LIST, AST_STATEMENT_LIST, AST_RBRACE]⟩,
  ⟨AST_STATEMENT_LIST, [AST_STATEMENT_LIST, AST_STATEMENT]⟩,
  ⟨AST_STATEMENT_LIST, [AST_STATEMENT]⟩,
  ⟨AST_SELECTION_STATEMENT, [AST_IF, AST_LPAREN, AST_EXPRESSION, AST_RPAREN, AST_STATEMENT]⟩,
  ⟨AST_SELECTION_STATEMENT, [AST_IF, AST_LPAREN, AST_EXPRESSION, AST_RPAREN, AST_STATEMENT, AST_ELSE, AST_STATEMENT]⟩,
  ⟨AST_SELECTION_STATEMENT, [AST_SWITCH, AST_LPAREN, AST_EXPRESSION, AST_RPAREN, AST_STATEMENT]⟩,
  ⟨AST_ITERATION_STATEMENT, [AST_WHILE, AST_LPAREN, AST_EXPRESSION, AST_RPAREN, AST_STATEMENT]⟩,
  ⟨AST_ITERATION_STATEMENT, [AST_DO, AST_STATEMENT, AST_WHILE, AST_LPAREN, AST_EXPRESSION, AST_RPAREN, AST_SEMICOLON]⟩,
  ⟨AST_ITERATION_STATEMENT, [AST_FOR, AST_LPAREN, AST_SEMICOLON, AST_SEMICOLON, AST_RPAREN, AST_STATEMENT]⟩,
  ⟨AST_ITERATION_STATEMENT, [AST_FOR, AST_LPAREN, AST_EXPRESSION, AST_SEMICOLON, AST_SEMICOLON, AST_RPAREN, AST_STATEMENT]⟩,
  ⟨AST_ITERATION_STATEMENT, [AST_FOR, AST_LPAREN, AST_SEMICOLON, AST_EXPRESSION, AST_SEMICOLON, AST_RPAREN, AST_STATEMENT]⟩,
  ⟨AST_ITERATION_STATEMENT, [AST_FOR, AST_LPAREN, AST_SEMICOLON, AST_SEMICOLON, AST_EXPRESSION, AST_RPAREN, AST_STATEMENT]⟩,
  ⟨AST_ITERATION_STATEMENT, [AST_FOR, AST_LPAREN, AST_EXPRESSION, AST_SEMICOLON, AST_EXPRESSION, AST_SEMICOLON, AST_RPAREN, AST_STATEMENT]⟩,
  ⟨AST_ITERATION_STATEMENT, [AST_FOR, AST_LPAREN, AST_EXPRESSION, AST_SEMICOLON, AST_SEMICOLON, AST_EXPRESSION, AST_RPAREN, AST_STATEMENT]⟩,
  ⟨AST_ITERATION_STATEMENT, [AST_FOR, AST_LPAREN, AST_SEMICOLON, AST_EXPRESSION, AST_SEMICOLON, AST_EXPRESSION, AST_RPAREN, AST_STATEMENT]⟩,
  ⟨AST_ITERATION_STATEMENT, [AST_FOR, AST_LPAREN, AST_EXPRESSION, AST_SEMICOLON, AST_EXPRESSION, AST_SEMICOLON, AST_EXPRESSION, AST_RPAREN, AST_STATEMENT]⟩,
  ⟨AST_JUMP_STATEMENT, [AST_GOTO, AST_IDENTIFIER, AST_SEMICOLON]⟩,
  ⟨AST_JUMP_STATEMENT, [AST_CONTINUE, AST_SEMICOLON]⟩,
  ⟨AST_JUMP_STATEMENT, [AST_BREAK, AST_SEMICOLON]⟩,
  ⟨AST_JUMP_STATEMENT, [AST_RETURN, AST_SEMICOLON]⟩,
  ⟨AST_JUMP_STATEMENT, [AST_RETURN, AST_EXPRESSION, AST_SEMICOLON]⟩,
  ⟨AST_EXPRESSION, [AST_EXPRESSION, AST_COMMA, AST_ASSIGNMENT_EXPRESSION]⟩,
  ⟨AST_EXPRESSION, [AST_ASSIGNMENT_EXPRESSION]⟩,
  ⟨AST_ASSIGNMENT_EXPRESSION, [AST_UNARY_EXPRESSION, AST_EQUAL, AST_ASSIGNMENT_EXPRESSION]⟩,
  ⟨AST_ASSIGNMENT_EXPRESSION, [AST_UNARY_EXPRESSION, AST_ASTERISK_EQUAL, AST_ASSIGNMENT_EXPRESSION]⟩,
  ⟨AST_ASSIGNMENT_EXPRESSION, [AST_UNARY_EXPRESSION, AST_BACKSLASH_EQUAL, AST_ASSIGNMENT_EXPRESSION]⟩,
  ⟨AST_ASSIGNMENT_EXPRESSION, [AST_UNARY_EXPRESSION, AST_MOD_EQUAL, AST_ASSIGNMENT_EXPRESSION]⟩,
  ⟨AST_ASSIGNMENT_EXPRESSION, [AST_UNARY_EXPRESSION, AST_PLUS_EQUAL, AST_ASSIGNMENT_EXPRESSION]⟩]

def grammar_part3 : List rule := [
  ⟨AST_ASSIGNMENT_EXPRESSION, [AST_UNARY_EXPRESSION, AST_MINUS_EQUAL, AST_ASSIGNMENT_EXPRESSION]⟩,
  ⟨AST_ASSIGNMENT_EXPRESSION, [AST_CONDITIONAL_EXPRESSION]⟩,
  ⟨AST_CONSTANT_EXPRESSION, [AST_CONDITIONAL_EXPRESSION]⟩,
  ⟨AST_CONDITIONAL_EXPRESSION, [AST_LOGICAL_OR_EXPRESSION, AST_QUESTIONMARK, AST_EXPRESSION, AST_COLON, AST_CONDITIONAL_EXPRESSION]⟩,
  ⟨AST_CONDITIONAL_EXPRESSION, [AST_LOGICAL_OR_EXPRESSION]⟩,
  ⟨AST_LOGICAL_OR_EXPRESSION, [AST_LOGICAL_OR_EXPRESSION, AST_VERTICALBAR_VERTICALBAR, AST_LOGICAL_AND_EXPRESSION]⟩,
  ⟨AST_LOGICAL_OR_EXPRESSION, [AST_LOGICAL_AND_EXPRESSION]⟩,
  ⟨AST_LOGICAL_AND_EXPRESSION, [AST_LOGICAL_AND_EXPRESSION, AST_AMPERSAND_AMPERSAND, AST_INCLUSIVE_OR_EXPRESSION]⟩,
  ⟨AST_LOGICAL_AND_EXPRESSION, [AST_INCLUSIVE_OR_EXPRESSION]⟩,
  ⟨AST_INCLUSIVE_OR_EXPRESSION, [AST_INCLUSIVE_OR_EXPRESSION, AST_VERTICALBAR, AST_EXCLUSIVE_OR_EXPRESSION]⟩,
  ⟨AST_INCLUSIVE_OR_EXPRESSION, [AST_EXCLUSIVE_OR_EXPRESSION]⟩,
  ⟨AST_EXCLUSIVE_OR_EXPRESSION, [AST_EXCLUSIVE_OR_EXPRESSION, AST_CARET, AST_AND_EXPRESSION]⟩,
  ⟨AST_EXCLUSIVE_OR_EXPRESSION, [AST_AND_EXPRESSION]⟩,
  ⟨AST_AND_EXPRESSION, [AST_AND_EXPRESSION, AST_AMPERSAND, AST_EQUALITY_EXPRESSION]⟩,
  ⟨AST_AND_EXPRESSION, [AST_EQUALITY_EXPRESSION]⟩,
  ⟨AST_EQUALITY_EXPRESSION, [AST_EQUALITY_EXPRESSION, AST_EQ, AST_RELATIONAL_EXPRESSION]⟩,
  ⟨AST_EQUALITY_EXPRESSION, [AST_EQUALITY_EXPRESSION, AST_NEQ, AST_RELATIONAL_EXPRESSION]⟩,
  ⟨AST_EQUALITY_EXPRESSION, [AST_RELATIONAL_EXPRESSION]⟩,
  ⟨AST_RELATIONAL_EXPRESSION, [AST_RELATIONAL_EXPRESSION, AST_LT, AST_SHIFT_EXPRESSION]⟩,
  ⟨AST_RELATIONAL_EXPRESSION, [AST_RELATIONAL_EXPRESSION, AST_GT, AST_SHIFT_EXPRESSION]⟩,
  ⟨AST_RELATIONAL_EXPRESSION, [AST_RELATIONAL_EXPRESSION, AST_LTEQ, AST_SHIFT_EXPRESSION]⟩,
  ⟨AST_RELATIONAL_EXPRESSION, [AST_RELATIONAL_EXPRESSION, AST_GTEQ, AST_SHIFT_EXPRESSION]⟩,
  ⟨AST_RELATIONAL_EXPRESSION, [AST_SHIFT_EXPRESSION]⟩,
  ⟨AST_SHIFT_EXPRESSION, [AST_SHIFT_EXPRESSION, AST_SHIFTLEFT, AST_ADDITIVE_EXPRESSION]⟩,
  ⟨AST_SHIFT_EXPRESSION, [AST_SHIFT_EXPRESSION, AST_SHIFTRIGHT, AST_ADDITIVE_EXPRESSION]⟩,
  ⟨AST_SHIFT_EXPRESSION, [AST_ADDITIVE_EXPRESSION]⟩,
  ⟨AST_ADDITIVE_EXPRESSION, [AST_ADDITIVE_EXPRESSION, AST_PLUS, AST_MULTIPLICATIVE_EXPRESSION]⟩,
  ⟨AST_ADDITIVE_EXPRESSION, [AST_ADDITIVE_EXPRESSION, AST_MINUS, AST_MULTIPLICATIVE_EXPRESSION]⟩,
  ⟨AST_ADDITIVE_EXPRESSION, [AST_MULTIPLICATIVE_EXPRESSION]⟩,
  ⟨AST_MULTIPLICATIVE_EXPRESSION, [AST_MULTIPLICATIVE_EXPRESSION, AST_ASTERISK, AST_CAST_EXPRESSION]⟩,
  ⟨AST_MULTIPLICATIVE_EXPRESSION, [AST_MULTIPLICATIVE_EXPRESSION, AST_BACKSLASH, AST_CAST_EXPRESSION]⟩,
  ⟨AST_MULTIPLICATIVE_EXPRESSION, [AST_MULTIPLICATIVE_EXPRESSION, AST_MOD, AST_CAST_EXPRESSION]⟩,
  ⟨AST_MULTIPLICATIVE_EXPRESSION, [AST_CAST_EXPRESSION]⟩,
  ⟨AST_CAST_EXPRESSION, [AST_UNARY_EXPRESSION]⟩,
  ⟨AST_UNARY_EXPRESSION, [AST_PLUS_PLUS, AST_UNARY_EXPRESSION]⟩,
  ⟨AST_UNARY_EXPRESSION, [AST_MINUS_MINUS, AST_UNARY_EXPRESSION]⟩,
  ⟨AST_UNARY_EXPRESSION, [AST_AMPERSAND, AST_CAST_EXPRESSION]⟩,
  ⟨AST_UNARY_EXPRESSION, [AST_ASTERISK, AST_CAST_EXPRESSION]⟩,
  ⟨AST_UNARY_EXPRESSION, [AST_PLUS, AST_CAST_EXPRESSION]⟩,
  ⟨AST_UNARY_EXPRESSION, [AST_MINUS, AST_CAST_EXPRESSION]⟩,
  ⟨AST_UNARY_EXPRESSION, [AST_POSTFIX_EXPRESSION]⟩,
  ⟨AST_POSTFIX_EXPRESSION, [AST_POSTFIX_EXPRESSION, AST_ARROW, AST_IDENTIFIER]⟩,
  ⟨AST_POSTFIX_EXPRESSION, [AST_POSTFIX_EXPRESSION, AST_PLUS_PLUS]⟩,
  ⟨AST_POSTFIX_EXPRESSION, [AST_POSTFIX_EXPRESSION, AST_MINUS_MINUS]⟩,
  ⟨AST_POSTFIX_EXPRESSION, [AST_PRIMARY_EXPRESSION]⟩,
  ⟨AST_PRIMARY_EXPRESSION, [AST_IDENTIFIER]⟩,
  ⟨AST_PRIMARY_EXPRESSION, [AST_CONSTANT]⟩,
  ⟨AST_CONSTANT, [AST_INTEGER_CONSTANT]⟩,
  ⟨AST_CONSTANT, [AST_CHARACTER_CONSTANT]⟩]

/-- The grammar as one list (split only to keep elaboration cheap; the
concatenation order is exactly the order of the C array). -/
def grammar : List rule := grammar_part0 ++ grammar_part1 ++ grammar_part2 ++ grammar_part3


/-! ### Scanner (scanner.c)

The input is the byte content as a list of characters.  Out-of-bounds reads
(the C does a few, e.g. the `&&` lookahead has no bounds check) are modelled
as reading NUL, which matches no branch condition. -/

/-- content[i], with out-of-bounds reads yielding NUL. -/
def charAt (content : List Char) (i : Nat) : Char := content.getD i (Char.ofNat 0)

/-- C isalpha on the scanner's byte input (C locale). -/
def c_isalpha (c : Char) : Bool :=
  (decide (Char.ofNat 65 ≤ c) && decide (c ≤ Char.ofNat 90)) ||
  (decide (Char.ofNat 97 ≤ c) && decide (c ≤ Char.ofNat 122))

/-- C isdigit. -/
def c_isdigit (c : Char) : Bool :=
  decide (Char.ofNat 48 ≤ c) && decide (c ≤ Char.ofNat 57)

/-- C isspace (C locale): blank, tab, newline, vertical tab, form feed,
carriage return. -/
def c_isspace (c : Char) : Bool :=
  c == Char.ofNat 32 || c == Char.ofNat 9 || c == Char.ofNat 10 ||
  c == Char.ofNat 11 || c == Char.ofNat 12 || c == Char.ofNat 13

/-- The character-consuming while loops of scan: smallest j ≥ i at which the
predicate (or the bound) fails.  Fuel-structural so the kernel can evaluate;
every caller passes fuel `content.length + 1`, more than the at most
`content.length - i` iterations the loop can make. -/
def consume_while (content : List Char) (p : Char → Bool) : Nat → Nat → Nat
  | 0, i => i
  | fuel + 1, i =>
    if i < content.length && p (charAt content i) then
      consume_while content p fuel (i + 1)
    else i

/-- The comment-skipping while loop: advance until i+1 is out of bounds or
content[i..i+1] is the closing star-slash.  Fuel as in consume_while. -/
def comment_skip (content : List Char) : Nat → Nat → Nat
  | 0, i => i
  | fuel + 1, i =>
    if i + 1 < content.length &&
        !(charAt content i == Char.ofNat 42 && charAt content (i + 1) == Char.ofNat 47) then
      comment_skip content fuel (i + 1)
    else i

/-- The reserved_map table of scanner.c (the TOK_EOF terminator entry is the
find-failure default below). -/
def reserved_map : List (Tok × List Char) := [
  (Tok.TOK_VOID, "void".toList),
  (Tok.TOK_CHAR, "char".toList),
  (Tok.TOK_SHORT, "short".toList),
  (Tok.TOK_INT, "int".toList),
  (Tok.TOK_LONG, "long".toList),
  (Tok.TOK_FLOAT, "float".toList),
  (Tok.TOK_DOUBLE, "double".toList),
  (Tok.TOK_SIGNED, "signed".toList),
  (Tok.TOK_UNSIGNED, "unsigned".toList),
  (Tok.TOK_GOTO, "goto".toList),
  (Tok.TOK_CONTINUE, "continue".toList),
  (Tok.TOK_BREAK, "break".toList),
  (Tok.TOK_RETURN, "return".toList),
  (Tok.TOK_FOR, "for".toList),
  (Tok.TOK_DO, "do".toList),
  (Tok.TOK_WHILE, "while".toList),
  (Tok.TOK_IF, "if".toList),
  (Tok.TOK_ELSE, "else".toList),
  (Tok.TOK_SWITCH, "switch".toList),
  (Tok.TOK_CASE, "case".toList),
  (Tok.TOK_DEFAULT, "default".toList),
  (Tok.TOK_ENUM, "enum".toList),
  (Tok.TOK_STRUCT, "struct".toList),
  (Tok.TOK_UNION, "union".toList),
  (Tok.TOK_CONST, "const".toList),
  (Tok.TOK_VOLATILE, "volatile".toList),
  (Tok.TOK_AUTO, "auto".toList),
  (Tok.TOK_REGISTER, "register".toList),
  (Tok.TOK_STATIC, "static".toList),
  ( Tok.TOK_EXTERN_KW, "extern".toList),
  (Tok.TOK_TYPEDEF, "typedef".toList)]

/-- reserved_word_token: the token kind of a reserved word, TOK_EOF when the
lexeme is none of them. -/
def reserved_word_token (s : List Char) : Tok :=
  match reserved_map.find? (fun p => p.2 == s) with
  | some p => p.1
  | none => Tok.TOK_EOF

/-- One iteration of the scan loop body at position i < length: the new
position and the tokens appended during the iteration (0 or 1).  The final
else-less arm: when no branch matches the character, the C body changes
nothing, so the iteration returns i unchanged and the loop repeats forever. -/
def scan_step (content : List Char) (i : Nat) : Nat × List Token :=
  let c := charAt content i
  if c_isalpha c || c == Char.ofNat 95 then
    let j := consume_while content
      (fun ch => c_isalpha ch || c_isdigit ch || ch == Char.ofNat 95)
      (content.length + 1) i
    let lexeme := (content.drop i).take (j - i)
    let t := reserved_word_token lexeme
    if t == Tok.TOK_EOF then (j, [⟨Tok.TOK_IDENTIFIER, some lexeme⟩])
    else (j, [⟨t, none⟩])
  else if c_isdigit c then
    let j := consume_while content c_isdigit (content.length + 1) i
    (j, [⟨Tok.TOK_INTEGER, some ((content.drop i).take (j - i))⟩])
  else if c == Char.ofNat 40 then (i + 1, [⟨Tok.TOK_LPAREN, none⟩])
  else if c == Char.ofNat 41 then (i + 1, [⟨Tok.TOK_RPAREN, none⟩])
  else if c == Char.ofNat 91 then (i + 1, [⟨Tok.TOK_LBRACKET, none⟩])
  else if c == Char.ofNat 93 then (i + 1, [⟨Tok.TOK_RBRACKET, none⟩])
  else if c == Char.ofNat 123 then (i + 1, [⟨Tok.TOK_LBRACE, none⟩])
  else if c == Char.ofNat 125 then (i + 1, [⟨Tok.TOK_RBRACE, none⟩])
  else if c == Char.ofNat 59 then (i + 1, [⟨Tok.TOK_SEMICOLON, none⟩])
  else if c == Char.ofNat 61 then
    if i + 1 < content.length && charAt content (i + 1) == Char.ofNat 61 then
      (i + 2, [⟨Tok.TOK_EQ, none⟩])
    else (i + 1, [⟨Tok.TOK_EQUAL, none⟩])
  else if c == Char.ofNat 33 then
    if i + 1 < content.length && charAt content (i + 1) == Char.ofNat 61 then
      (i + 2, [⟨Tok.TOK_NEQ, none⟩])
    else (i + 1, [⟨Tok.TOK_BANG, none⟩])
  else if c == Char.ofNat 43 then
    if i + 1 < content.length && charAt content (i + 1) == Char.ofNat 43 then
      (i + 2, [⟨Tok.TOK_PLUS_PLUS, none⟩])
    else if i + 1 < content.length && charAt content (i + 1) == Char.ofNat 61 then
      (i + 2, [⟨Tok.TOK_PLUS_EQUAL, none⟩])
    else (i + 1, [⟨Tok.TOK_PLUS, none⟩])
  else if c == Char.ofNat 45 then
    if i + 1 < content.length && charAt content (i + 1) == Char.ofNat 45 then
      (i + 2, [⟨Tok.TOK_MINUS_MINUS, none⟩])
    else if i + 1 < content.length && charAt content (i + 1) == Char.ofNat 61 then
      (i + 2, [⟨Tok.TOK_MINUS_EQUAL, none⟩])
    else if i + 1 < content.length && charAt content (i + 1) == Char.ofNat 62 then
      (i + 2, [⟨Tok.TOK_ARROW, none⟩])
    else (i + 1, [⟨Tok.TOK_MINUS, none⟩])
  else if c == Char.ofNat 42 then
    if i + 1 < content.length && charAt content (i + 1) == Char.ofNat 61 then
      (i + 2, [⟨Tok.TOK_ASTERISK_EQUAL, none⟩])
    else (i + 1, [⟨Tok.TOK_ASTERISK, none⟩])
  else if c == Char.ofNat 38 then
    -- the C reads content[i] after the increment with no bounds check
    if charAt content (i + 1) == Char.ofNat 38 then
      (i + 2, [⟨Tok.TOK_AMPERSAND_AMPERSAND, none⟩])
    else (i + 1, [⟨Tok.TOK_AMPERSAND, none⟩])
  else if c == Char.ofNat 39 then (i + 1, [⟨Tok.TOK_SINGLEQUOTE, none⟩])
  else if c == Char.ofNat 34 then
    let j := consume_while content (fun ch => !(ch == Char.ofNat 34)) (content.length + 1) (i + 1)
    (j + 1, [⟨Tok.TOK_STRING, some ((content.drop (i + 1)).take (j - (i + 1)))⟩])
  else if c == Char.ofNat 47 then
    if i + 1 < content.length && charAt content (i + 1) == Char.ofNat 61 then
      (i + 2, [⟨Tok.TOK_BACKSLASH_EQUAL, none⟩])
    else if i + 1 < content.length && charAt content (i + 1) == Char.ofNat 42 then
      let k := comment_skip content (content.length + 1) (i + 2)
      (if k < content.length then k + 2 else k, [])
    else (i + 1, [⟨Tok.TOK_BACKSLASH, none⟩])
  else if c == Char.ofNat 37 then
    if i + 1 < content.length && charAt content (i + 1) == Char.ofNat 61 then
      (i + 2, [⟨Tok.TOK_MOD_EQUAL, none⟩])
    else (i + 1, [⟨Tok.TOK_MOD, none⟩])
  else if c == Char.ofNat 62 then
    if i + 1 < content.length && charAt content (i + 1) == Char.ofNat 62 then
      (i + 2, [⟨Tok.TOK_SHIFTRIGHT, none⟩])
    else if i + 1 < content.length && charAt content (i + 1) == Char.ofNat 61 then
      (i + 2, [⟨Tok.TOK_GREATERTHANEQUAL, none⟩])
    else (i + 1, [⟨Tok.TOK_GREATERTHAN, none⟩])
  else if c == Char.ofNat 60 then
    if i + 1 < content.length && charAt content (i + 1) == Char.ofNat 60 then
      (i + 2, [⟨Tok.TOK_SHIFTLEFT, none⟩])
    else if i + 1 < content.length && charAt content (i + 1) == Char.ofNat 61 then
      (i + 2, [⟨Tok.TOK_LESSTHANEQUAL, none⟩])
    else (i + 1, [⟨Tok.TOK_LESSTHAN, none⟩])
  else if c == Char.ofNat 94 then (i + 1, [⟨Tok.TOK_CARET, none⟩])
  else if c == Char.ofNat 44 then (i + 1, [⟨Tok.TOK_COMMA, none⟩])
  else if c == Char.ofNat 63 then (i + 1, [⟨Tok.TOK_QUESTIONMARK, none⟩])
  else if c == Char.ofNat 58 then (i + 1, [⟨Tok.TOK_COLON, none⟩])
  else if c == Char.ofNat 124 then
    if i + 1 < content.length && charAt content (i + 1) == Char.ofNat 124 then
      (i + 2, [⟨Tok.TOK_VERTICALBAR_VERTICALBAR, none⟩])
    else (i + 1, [⟨Tok.TOK_VERTICALBAR, none⟩])
  else if c == Char.ofNat 46 then
    -- the C condition is i < content_len + 2, transcribed as written
    if i + 1 < content.length + 2 && charAt content (i + 1) == Char.ofNat 46 &&
        charAt content (i + 2) == Char.ofNat 46 then
      (i + 3, [⟨Tok.TOK_ELLIPSIS, none⟩])
    else (i + 1, [⟨Tok.TOK_DOT, none⟩])
  else if c_isspace c then (i + 1, [])
  else (i, [])

/-- The scan loop, fuel-indexed: `none` means the loop has not exited within
`fuel` iterations. -/
def scan_loop : Nat → List Char → Nat → List Token → Option (List Token)
  | 0, _, _, _ => none
  | fuel + 1, content, i, acc =>
    if i < content.length then
      let s := scan_step content i
      scan_loop fuel content s.1 (acc ++ s.2)
    else some acc

/-- scan: run the loop (any terminating run takes at most length+1
iterations, since every productive iteration advances i) and append the
TOK_EOF sentinel the C appends after the loop. -/
def scan (content : List Char) : Option (List Token) :=
  (scan_loop (content.length + 1) content 0 []).map
    (fun ts => ts ++ [⟨Tok.TOK_EOF, none⟩])

/-! ### AST nodes and the token-to-leaf adapter (parser.c) -/

mutual
/-- struct astnode: a symbol, the children list and the token payload.  The C
children list is a list of void pointers; the driver's reduce loop pushes
`stack->data` entries into it, so an element is either a state-id half or an
astnode half of a stack pair — the `entry` type below.  The C leaves
`children` uninitialized in token_to_astnode leaves (never read); leaves are
modelled with an empty list. -/
inductive astnode where
  | mk (type : Nat) (children : List entry) (constant : Option Token)

/-- A parse-stack entry: a state id (the C pushes a pointer to the cell's
int) or an AST node. -/
inductive entry where
  | state (v : Nat)
  | nd (a : astnode)
end

def astnode.type : astnode → Nat
  | .mk t _ _ => t

def astnode.children : astnode → List entry
  | .mk _ c _ => c

def astnode.constant : astnode → Option Token
  | .mk _ _ k => k

/-- token_to_astnode, branch for branch.  The C declares `node`, assigns it
only inside the if-else chain, and returns it: a token kind with no branch
returns an uninitialized pointer, modelled as `none`. -/
def token_to_astnode (t : Token) : Option astnode :=
  match t.type with
  | Tok.TOK_INTEGER => some ⟨AST_INTEGER_CONSTANT, [], some t⟩
  | Tok.TOK_IDENTIFIER => some ⟨AST_IDENTIFIER, [], some t⟩
  | Tok.TOK_PLUS => some ⟨AST_PLUS, [], some t⟩
  | Tok.TOK_PLUS_PLUS => some ⟨AST_PLUS_PLUS, [], some t⟩
  | Tok.TOK_PLUS_EQUAL => some ⟨AST_PLUS_EQUAL, [], some t⟩
  | Tok.TOK_MINUS => some ⟨AST_MINUS, [], some t⟩
  | Tok.TOK_MINUS_MINUS => some ⟨AST_MINUS_MINUS, [], some t⟩
  | Tok.TOK_MINUS_EQUAL => some ⟨AST_MINUS_EQUAL, [], some t⟩
  | Tok.TOK_AMPERSAND => some ⟨AST_AMPERSAND, [], some t⟩
  | Tok.TOK_AMPERSAND_AMPERSAND => some ⟨AST_AMPERSAND_AMPERSAND, [], some t⟩
  | Tok.TOK_ASTERISK => some ⟨AST_ASTERISK, [], some t⟩
  | Tok.TOK_ASTERISK_EQUAL => some ⟨AST_ASTERISK_EQUAL, [], some t⟩
  | Tok.TOK_BACKSLASH => some ⟨AST_BACKSLASH, [], some t⟩
  | Tok.TOK_BACKSLASH_EQUAL => some ⟨AST_BACKSLASH_EQUAL, [], some t⟩
  | Tok.TOK_CARET => some ⟨AST_CARET, [], some t⟩
  | Tok.TOK_COMMA => some ⟨AST_COMMA, [], some t⟩
  | Tok.TOK_ELLIPSIS => some ⟨AST_ELLIPSIS, [], some t⟩
  | Tok.TOK_MOD => some ⟨AST_MOD, [], some t⟩
  | Tok.TOK_MOD_EQUAL => some ⟨AST_MOD_EQUAL, [], some t⟩
  | Tok.TOK_QUESTIONMARK => some ⟨AST_QUESTIONMARK, [], some t⟩
  | Tok.TOK_COLON => some ⟨AST_COLON, [], some t⟩
  | Tok.TOK_SEMICOLON => some ⟨AST_SEMICOLON, [], some t⟩
  | Tok.TOK_LPAREN => some ⟨AST_LPAREN, [], some t⟩
  | Tok.TOK_RPAREN => some ⟨AST_RPAREN, [], some t⟩
  | Tok.TOK_LBRACKET => some ⟨AST_LBRACKET, [], some t⟩
  | Tok.TOK_RBRACKET => some ⟨AST_RBRACKET, [], some t⟩
  | Tok.TOK_LBRACE => some ⟨AST_LBRACE, [], some t⟩
  | Tok.TOK_RBRACE => some ⟨AST_RBRACE, [], some t⟩
  | Tok.TOK_VERTICALBAR => some ⟨AST_VERTICALBAR, [], some t⟩
  | Tok.TOK_VERTICALBAR_VERTICALBAR => some ⟨AST_VERTICALBAR_VERTICALBAR, [], some t⟩
  | Tok.TOK_SHIFTLEFT => some ⟨AST_SHIFTLEFT, [], some t⟩
  | Tok.TOK_SHIFTRIGHT => some ⟨AST_SHIFTRIGHT, [], some t⟩
  | Tok.TOK_LESSTHAN => some ⟨AST_LT, [], some t⟩
  | Tok.TOK_GREATERTHAN => some ⟨AST_GT, [], some t⟩
  | Tok.TOK_LESSTHANEQUAL => some ⟨AST_LTEQ, [], some t⟩
  | Tok.TOK_GREATERTHANEQUAL => some ⟨AST_GTEQ, [], some t⟩
  | Tok.TOK_EQ => some ⟨AST_EQ, [], some t⟩
  | Tok.TOK_NEQ => some ⟨AST_NEQ, [], some t⟩
  | Tok.TOK_EQUAL => some ⟨AST_EQUAL, [], some t⟩
  | Tok.TOK_VOID => some ⟨AST_VOID, [], some t⟩
  | Tok.TOK_SHORT => some ⟨AST_SHORT, [], some t⟩
  | Tok.TOK_INT => some ⟨AST_INT, [], some t⟩
  | Tok.TOK_CHAR => some ⟨AST_CHAR, [], some t⟩
  | Tok.TOK_LONG => some ⟨AST_LONG, [], some t⟩
  | Tok.TOK_FLOAT => some ⟨AST_FLOAT, [], some t⟩
  | Tok.TOK_DOUBLE => some ⟨AST_DOUBLE, [], some t⟩
  | Tok.TOK_SIGNED => some ⟨AST_SIGNED, [], some t⟩
  | Tok.TOK_UNSIGNED => some ⟨AST_UNSIGNED, [], some t⟩
  | Tok.TOK_AUTO => some ⟨AST_AUTO, [], some t⟩
  | Tok.TOK_REGISTER => some ⟨AST_REGISTER, [], some t⟩
  | Tok.TOK_STATIC => some ⟨AST_STATIC, [], some t⟩
  | Tok.TOK_EXTERN_KW => some ⟨ AST_EXTERN_KW, [], some t⟩
  | Tok.TOK_TYPEDEF => some ⟨AST_TYPEDEF, [], some t⟩
  | Tok.TOK_GOTO => some ⟨AST_GOTO, [], some t⟩
  | Tok.TOK_CONTINUE => some ⟨AST_CONTINUE, [], some t⟩
  | Tok.TOK_BREAK => some ⟨AST_BREAK, [], some t⟩
  | Tok.TOK_RETURN => some ⟨AST_RETURN, [], some t⟩
  | Tok.TOK_FOR => some ⟨AST_FOR, [], some t⟩
  | Tok.TOK_DO => some ⟨AST_DO, [], some t⟩
  | Tok.TOK_WHILE => some ⟨AST_WHILE, [], some t⟩
  | Tok.TOK_IF => some ⟨AST_IF, [], some t⟩
  | Tok.TOK_ELSE => some ⟨AST_ELSE, [], some t⟩
  | Tok.TOK_SWITCH => some ⟨AST_SWITCH, [], some t⟩
  | Tok.TOK_CASE => some ⟨AST_CASE, [], some t⟩
  | Tok.TOK_DEFAULT => some ⟨AST_DEFAULT, [], some t⟩
  | Tok.TOK_ENUM => some ⟨AST_ENUM, [], some t⟩
  | Tok.TOK_STRUCT => some ⟨AST_STRUCT, [], some t⟩
  | Tok.TOK_UNION => some ⟨AST_UNION, [], some t⟩
  | Tok.TOK_CONST => some ⟨AST_CONST, [], some t⟩
  | Tok.TOK_VOLATILE => some ⟨AST_VOLATILE, [], some t⟩
  | Tok.TOK_EOF => some ⟨AST_INVALID, [], some t⟩
  | Tok.TOK_ARROW => none
  | Tok.TOK_BANG => none
  | Tok.TOK_SINGLEQUOTE => none
  | Tok.TOK_STRING => none
  | Tok.TOK_DOT => none

/-! ### Parse table cells and the shift/reduce driver (parser.c) -/

/-- struct parsetable_item: one cell; the mallocked table is memset to zero,
so the default cell is all-zero.  `rule` is the index of the rule in the
grammar table (the C stores the pointer into the static array). -/
structure parsetable_item where
  shift : Bool := false
  reduce : Bool := false
  state : Nat := 0
  rule : Nat := 0
  deriving DecidableEq, Repr

/-- The table as the C addresses it: a flat tape of cells indexed by
`state * NUM_SYMBOLS + INDEX(symbol)` (pointer arithmetic, no bounds). -/
def cellAt (tbl : Nat → parsetable_item) (s : Nat) (sym : Nat) : parsetable_item :=
  tbl (s * NUM_SYMBOLS + INDEX sym)

/-- The default rule a dangling rule index dereferences to (never reached for
cells init_parsetable wrote: those store genuine indices). -/
def null_rule : rule := ⟨0, []⟩

/-- The driver's reduce loop over the stack: `length_of_nodes` iterations of
`list_append(children, stack->data); stack = stack->next->next`.  Returns the
appended children (in append order: top of stack first) and the remaining
stack; `none` when `stack->next->next` dereferences a null pointer. -/
def reduce_pop (stack : List entry) : Nat → Option (List entry × List entry)
  | 0 => some ([], stack)
  | n + 1 =>
    match stack with
    | e :: _ :: rest => (reduce_pop rest n).map (fun p => (e :: p.1, p.2))
    | _ => none

/-- Top-of-stack state id: `*(int *)stack->data`.  Reading an astnode entry
as an int, or an empty stack, is undefined behaviour: `none`. -/
def topState : List entry → Option Nat
  | entry.state v :: _ => some v
  | _ => none

/-- How a run of parse ends: a returned root (`none` inside means the C
returns the uninitialized `root` variable), a failed
`assert(token->next == NULL)`, or undefined behaviour. -/
inductive presult where
  | ret (root : Option astnode)
  | assertFail
  | ub

/-- What one iteration of the parse loop does: either the loop goes on with
a new stack / root / token cursor, or the run ends with a result. -/
inductive stepOut where
  | next (stack : List entry) (root : Option astnode) (tokens : List Token)
  | halt (r : presult)

/-- One iteration of the shift/reduce loop body of parse. -/
def parse_step (tbl : Nat → parsetable_item) (stack : List entry)
    (root : Option astnode) : List Token → stepOut
  | [] => stepOut.halt (presult.ret root)
  | tok :: rest =>
    match topState stack with
    | none => stepOut.halt presult.ub
    | some s =>
      match token_to_astnode tok with
      | none => stepOut.halt presult.ub
      | some nd =>
        if (cellAt tbl s nd.type).shift then
          stepOut.next
            (entry.state (cellAt tbl s nd.type).state :: entry.nd nd :: stack) root rest
        else if (cellAt tbl s nd.type).reduce then
          match reduce_pop stack
              (grammar.getD (cellAt tbl s nd.type).rule null_rule).nodes.length with
          | none => stepOut.halt presult.ub
          | some (children, stack2) =>
            match topState stack2 with
            | none => stepOut.halt presult.ub
            | some s2 =>
              stepOut.next
                (entry.state (cellAt tbl s2
                    (grammar.getD (cellAt tbl s nd.type).rule null_rule).type).state ::
                  entry.nd ⟨(grammar.getD (cellAt tbl s nd.type).rule null_rule).type,
                    children, none⟩ :: stack2)
                (some ⟨(grammar.getD (cellAt tbl s nd.type).rule null_rule).type,
                  children, none⟩)
                (tok :: rest)
        else
          -- empty cell: assert(token->next == NULL), then break and return root
          match rest with
          | [] => stepOut.halt (presult.ret root)
          | _ :: _ => stepOut.halt presult.assertFail

/-- The shift/reduce loop of parse, fuel-indexed (a reduce step does not
consume input, so the C loop need not terminate on arbitrary tables).
`stack` is the linked list with the most recent entry first, `root` the last
node a reduce assigned. -/
def parseFuel (tbl : Nat → parsetable_item) :
    Nat → List entry → Option astnode → List Token → Option presult
  | 0, _, _, _ => none
  | fuel + 1, stack, root, tokens =>
    match parse_step tbl stack root tokens with
    | stepOut.halt r => some r
    | stepOut.next stack2 root2 tokens2 => parseFuel tbl fuel stack2 root2 tokens2

/-- parse: stack starts as the single state 0, root uninitialized. -/
def parse (tbl : Nat → parsetable_item) (tokens : List Token) (fuel : Nat) :
    Option presult :=
  parseFuel tbl fuel [entry.state 0] none tokens

/-! ### FIRST sets: head_terminal_values (parser.c) -/

/-- checked_nodes_contains: list membership (also used on the terminals
list inside head_terminal_values, as the C does). -/
def checked_nodes_contains (l : List Nat) (node : Nat) : Bool := l.contains node

/-- head_terminal_values, fuel-indexed (the C recursion terminates because
checked_nodes grows; fuel at least one more than the number of distinct
non-terminals reproduces it exactly).  The two C out-parameters
checked_nodes and terminals are threaded through and returned. -/
def head_terminal_values : Nat → Nat → List Nat → List Nat → Option (List Nat × List Nat)
  | 0, _, _, _ => none
  | fuel + 1, node, checked_nodes, terminals =>
    if checked_nodes_contains checked_nodes node then some (checked_nodes, terminals)
    else if node < AST_INVALID then some (checked_nodes, terminals ++ [node])
    else
      grammar.foldl
        (fun acc r =>
          match acc with
          | none => none
          | some (c, t) =>
            if r.type == node then
              if decide (r.nodes.headD 0 < AST_INVALID) &&
                  !(checked_nodes_contains t (r.nodes.headD 0)) then
                some (c, t ++ [r.nodes.headD 0])
              else if r.nodes.headD 0 != node then
                head_terminal_values fuel (r.nodes.headD 0) c t
              else some (c, t)
            else some (c, t))
        (some (checked_nodes ++ [node], terminals))

/-- Union of two Nat lists keeping the left's order and dropping duplicates
from the right. -/
def list_union (a b : List Nat) : List Nat :=
  a ++ b.filter (fun x => !(a.contains x))

/-- Modelled from the spec: the contract of 4.B in the spec's own words, for
comparison with the code's head_terminal_values.  For a terminal input,
returns that terminal alone; for a non-terminal N, the union over all rules
N to body of the head terminals of body's first symbol, skipping the
self-left-recursive case; cycles are broken by the visited set. -/
def spec_head_terminals : Nat → List Nat → Nat → List Nat
  | 0, _, _ => []
  | fuel + 1, visited, node =>
    if node < AST_INVALID then [node]
    else if visited.contains node then []
    else
      grammar.foldl
        (fun acc r =>
          if r.type == node && r.nodes.headD 0 != node then
            list_union acc (spec_head_terminals fuel (node :: visited) (r.nodes.headD 0))
          else acc)
        []

/-! ### Items, states and the parse-table projector (parser.c) -/

/-- list_equal from utilities.c, which is not among the repository files.
Modelled from the spec: item equality compares lookaheads by set-equality
(and the NULL list is the empty list). -/
def list_equal (a b : List Nat) : Bool :=
  a.all (fun x => b.contains x) && b.all (fun x => a.contains x)

/-- struct item: the rule (by its index in the grammar table, standing for
the C pointer into the static array), the cursor and the lookahead list. -/
structure item where
  rewrite_rule : Nat
  cursor_position : Nat
  lookahead : List Nat
  deriving DecidableEq, Repr

/-- struct state: identifier, item list and the per-symbol links.  A link is
the identifier of the linked state (the C stores a pointer whose identifier
field init_parsetable reads). -/
structure state where
  identifier : Nat
  items : List item
  links : List (Option Nat)
  deriving DecidableEq, Repr

/-- Body length of a rule index (the C's `rewrite_rule->length_of_nodes`). -/
def rule_len (ri : Nat) : Nat := (grammar.getD ri null_rule).nodes.length

/-- A completed item: cursor at the end of its rule's body. -/
def item_completed (it : item) : Prop := it.cursor_position = rule_len it.rewrite_rule

instance (it : item) : Decidable (item_completed it) := by
  unfold item_completed; infer_instance

/-- One store to the flat table tape. -/
def write (tbl : Nat → parsetable_item) (idx : Nat)
    (f : parsetable_item → parsetable_item) : Nat → parsetable_item :=
  fun k => if k = idx then f (tbl k) else tbl k

/-- The transitions pass of init_parsetable over one state's row: GOTO cells
for non-terminal columns, SHIFT cells for terminal columns, nothing at the
AST_INVALID column. -/
def goto_shift_writes (row : Nat) (links : List (Option Nat))
    (tbl : Nat → parsetable_item) : Nat → parsetable_item :=
  (List.range NUM_SYMBOLS).foldl
    (fun tbl j =>
      match links.getD j none with
      | some tgt =>
        if AST_INVALID < j then
          write tbl (row + j) (fun c => {c with state := tgt})
        else if j < AST_INVALID then
          write tbl (row + j) (fun c => {c with shift := true, state := tgt})
        else tbl
      | none => tbl)
    tbl

/-- The lookahead loop of the reduce pass: one REDUCE cell per lookahead
terminal. -/
def lookahead_writes (row : Nat) (ri : Nat) (las : List Nat)
    (tbl : Nat → parsetable_item) : Nat → parsetable_item :=
  las.foldl
    (fun tbl la => write tbl (row + la) (fun c => {c with reduce := true, rule := ri}))
    tbl

/-- The reduce pass of init_parsetable for one item: when the item is
completed, a REDUCE cell per lookahead terminal, and for the NULL (empty)
lookahead a REDUCE cell in the AST_INVALID column. -/
def reduce_item_writes (row : Nat) (it : item)
    (tbl : Nat → parsetable_item) : Nat → parsetable_item :=
  if item_completed it then
    if it.lookahead = [] then
      write (lookahead_writes row it.rewrite_rule it.lookahead tbl) (row + AST_INVALID)
        (fun c => {c with reduce := true, rule := it.rewrite_rule})
    else lookahead_writes row it.rewrite_rule it.lookahead tbl
  else tbl

/-- init_parsetable's work for one state. -/
def process_state (tbl : Nat → parsetable_item) (st : state) : Nat → parsetable_item :=
  st.items.foldl
    (fun t it => reduce_item_writes (st.identifier * NUM_SYMBOLS) it t)
    (goto_shift_writes (st.identifier * NUM_SYMBOLS) st.links tbl)

/-- init_parsetable: start from the zeroed table (malloc + memset 0) and
process every state in order. -/
def init_parsetable (sts : List state) : Nat → parsetable_item :=
  sts.foldl process_state (fun _ => {})

/-! ### Facts about the projector's writes -/

theorem num_symbols_pos : 0 < NUM_SYMBOLS := by decide

theorem invalid_lt_num : AST_INVALID < NUM_SYMBOLS := by decide

/-- Two flat-tape indices of the dense table agree only when row and column
agree (columns below the row width). -/
theorem flat_index_inj {a b c d : Nat} (hc : c < NUM_SYMBOLS) (hd : d < NUM_SYMBOLS)
    (h : a * NUM_SYMBOLS + c = b * NUM_SYMBOLS + d) : a = b ∧ c = d := by
  unfold NUM_SYMBOLS at hc hd h
  omega

theorem write_at (tbl : Nat → parsetable_item) (idx : Nat) (f : parsetable_item → parsetable_item) :
    write tbl idx f idx = f (tbl idx) := by
  simp [write]

theorem write_ne (tbl : Nat → parsetable_item) (idx : Nat) (f : parsetable_item → parsetable_item)
    {k : Nat} (h : k ≠ idx) : write tbl idx f k = tbl k := by
  simp [write, h]

/-- Generic foldl invariant. -/
theorem foldl_inv {α β : Type _} {P : β → Prop} (f : β → α → β) :
    ∀ (l : List α) (b : β), P b → (∀ b a, a ∈ l → P b → P (f b a)) → P (l.foldl f b) := by
  intro l
  induction l with
  | nil => intro b hb _; exact hb
  | cons a l ih =>
    intro b hb hstep
    exact ih (f b a) (hstep b a (List.mem_cons_self a l) hb)
      (fun b2 a2 ha2 h2 => hstep b2 a2 (List.mem_cons_of_mem a ha2) h2)

/-- One step of the GOTO / SHIFT pass. -/
theorem goto_shift_step_cases (links : List (Option Nat)) (row j : Nat)
    (t : Nat → parsetable_item) :
    (match links.getD j none with
      | some tgt =>
        if AST_INVALID < j then
          write t (row + j) (fun c => {c with state := tgt})
        else if j < AST_INVALID then
          write t (row + j) (fun c => {c with shift := true, state := tgt})
        else t
      | none => t) = t ∨
    (∃ tgt, AST_INVALID < j ∧
      (match links.getD j none with
        | some tgt2 =>
          if AST_INVALID < j then
            write t (row + j) (fun c => {c with state := tgt2})
          else if j < AST_INVALID then
            write t (row + j) (fun c => {c with shift := true, state := tgt2})
          else t
        | none => t) = write t (row + j) (fun c => {c with state := tgt})) ∨
    (∃ tgt, j < AST_INVALID ∧
      (match links.getD j none with
        | some tgt2 =>
          if AST_INVALID < j then
            write t (row + j) (fun c => {c with state := tgt2})
          else if j < AST_INVALID then
            write t (row + j) (fun c => {c with shift := true, state := tgt2})
          else t
        | none => t) = write t (row + j) (fun c => {c with shift := true, state := tgt})) := by
  cases hl : links.getD j none with
  | none => exact Or.inl rfl
  | some tgt =>
    by_cases h1 : AST_INVALID < j
    · exact Or.inr (Or.inl ⟨tgt, h1, by simp [if_pos h1]⟩)
    · by_cases h2 : j < AST_INVALID
      · exact Or.inr (Or.inr ⟨tgt, h2, by simp [if_neg h1, if_pos h2]⟩)
      · exact Or.inl (by simp [if_neg h1, if_neg h2])

/-- The GOTO / SHIFT pass never touches the reduce and rule fields. -/
theorem goto_shift_reduce_rule (row : Nat) (links : List (Option Nat))
    (tbl : Nat → parsetable_item) (k : Nat) :
    ((goto_shift_writes row links tbl) k).reduce = (tbl k).reduce ∧
    ((goto_shift_writes row links tbl) k).rule = (tbl k).rule := by
  unfold goto_shift_writes
  refine foldl_inv
    (P := fun t => (t k).reduce = (tbl k).reduce ∧ (t k).rule = (tbl k).rule)
    _ (List.range NUM_SYMBOLS) tbl ⟨rfl, rfl⟩ ?_
  intro t j _ ht
  rcases goto_shift_step_cases links row j t with h | ⟨tgt, _, h⟩ | ⟨tgt, _, h⟩ <;>
    rw [h] <;>
    first
    | exact ht
    | · by_cases hk : k = row + j
        · subst hk; rw [write_at]; exact ht
        · rw [write_ne _ _ _ hk]; exact ht

/-- The GOTO / SHIFT pass of row id never sets a shift flag in any row's
AST_INVALID column: GOTO writes keep the flag, and SHIFT writes go to a
column strictly below AST_INVALID. -/
theorem goto_shift_shift_at_invalid (id : Nat) (links : List (Option Nat))
    (tbl : Nat → parsetable_item) (s : Nat) :
    ((goto_shift_writes (id * NUM_SYMBOLS) links tbl)
        (s * NUM_SYMBOLS + AST_INVALID)).shift =
      (tbl (s * NUM_SYMBOLS + AST_INVALID)).shift := by
  unfold goto_shift_writes
  refine foldl_inv
    (P := fun t => (t (s * NUM_SYMBOLS + AST_INVALID)).shift =
      (tbl (s * NUM_SYMBOLS + AST_INVALID)).shift) _ (List.range NUM_SYMBOLS) tbl rfl ?_
  intro t j hj ht
  have hjn : j < NUM_SYMBOLS := List.mem_range.mp hj
  rcases goto_shift_step_cases links (id * NUM_SYMBOLS) j t with h | ⟨tgt, hgt, h⟩ | ⟨tgt, hlt, h⟩
  · rw [h]; exact ht
  · rw [h]
    by_cases hk : s * NUM_SYMBOLS + AST_INVALID = id * NUM_SYMBOLS + j
    · have := flat_index_inj invalid_lt_num hjn hk
      omega
    · rw [write_ne _ _ _ hk]; exact ht
  · rw [h]
    by_cases hk : s * NUM_SYMBOLS + AST_INVALID = id * NUM_SYMBOLS + j
    · have := flat_index_inj invalid_lt_num hjn hk
      omega
    · rw [write_ne _ _ _ hk]; exact ht

/-- The lookahead loop never touches a shift flag. -/
theorem lookahead_writes_shift (row ri : Nat) (las : List Nat)
    (tbl : Nat → parsetable_item) (k : Nat) :
    ((lookahead_writes row ri las tbl) k).shift = (tbl k).shift := by
  induction las generalizing tbl with
  | nil => rfl
  | cons la las ih =>
    unfold lookahead_writes at ih ⊢
    rw [List.foldl_cons, ih]
    by_cases hk : k = row + la
    · subst hk; rw [write_at]
    · rw [write_ne _ _ _ hk]

/-- The reduce pass never touches a shift flag. -/
theorem reduce_item_shift (row : Nat) (it : item) (tbl : Nat → parsetable_item) (k : Nat) :
    ((reduce_item_writes row it tbl) k).shift = (tbl k).shift := by
  unfold reduce_item_writes
  by_cases hc : item_completed it
  · rw [if_pos hc]
    by_cases hn : it.lookahead = []
    · rw [if_pos hn]
      by_cases hk : k = row + AST_INVALID
      · subst hk; rw [write_at, lookahead_writes_shift]
      · rw [write_ne _ _ _ hk, lookahead_writes_shift]
    · rw [if_neg hn, lookahead_writes_shift]
  · rw [if_neg hc]

/-- In any table init_parsetable builds, no AST_INVALID column holds a
SHIFT. -/
theorem init_parsetable_no_shift_at_invalid (sts : List state) (s : Nat) :
    ((init_parsetable sts) (s * NUM_SYMBOLS + AST_INVALID)).shift = false := by
  unfold init_parsetable
  refine foldl_inv
    (P := fun t : Nat → parsetable_item =>
      (t (s * NUM_SYMBOLS + AST_INVALID)).shift = false) _ sts _ rfl ?_
  intro t st _ ht
  unfold process_state
  have hred : ∀ (its : List item) (t2 : Nat → parsetable_item),
      ((its.foldl (fun t2 it => reduce_item_writes (st.identifier * NUM_SYMBOLS) it t2) t2)
        (s * NUM_SYMBOLS + AST_INVALID)).shift =
      (t2 (s * NUM_SYMBOLS + AST_INVALID)).shift := by
    intro its
    induction its with
    | nil => intro t2; rfl
    | cons it its ih =>
      intro t2
      rw [List.foldl_cons, ih, reduce_item_shift]
  rw [hred, goto_shift_shift_at_invalid]
  exact ht

/-- A completed item whose lookahead list is empty: the C's NULL-lookahead
(end-of-input) reduce item. -/
def null_reduce_item (it : item) : Prop := item_completed it ∧ it.lookahead = []

instance (it : item) : Decidable (null_reduce_item it) := by
  unfold null_reduce_item; infer_instance

theorem lookahead_writes_ne (row ri : Nat) (las : List Nat)
    (tbl : Nat → parsetable_item) (k : Nat) (h : ∀ la ∈ las, k ≠ row + la) :
    lookahead_writes row ri las tbl k = tbl k := by
  induction las generalizing tbl with
  | nil => rfl
  | cons la las ih =>
    unfold lookahead_writes at ih ⊢
    rw [List.foldl_cons, ih _ (fun la2 h2 => h la2 (List.mem_cons_of_mem la h2)),
      write_ne _ _ _ (h la (List.mem_cons_self la las))]

/-- Processing a NULL-lookahead completed item sets REDUCE of its rule at
the row's AST_INVALID column. -/
theorem reduce_item_at_invalid_qual (row : Nat) (it : item)
    (tbl : Nat → parsetable_item) (hq : null_reduce_item it) :
    reduce_item_writes row it tbl (row + AST_INVALID) =
      {tbl (row + AST_INVALID) with reduce := true, rule := it.rewrite_rule} := by
  unfold reduce_item_writes
  have hnil : lookahead_writes row it.rewrite_rule [] tbl = tbl := rfl
  rw [if_pos hq.1, if_pos hq.2, hq.2, hnil, write_at]

/-- Processing any other item leaves the row's AST_INVALID cell unchanged
(its lookahead writes go to terminal columns). -/
theorem reduce_item_at_invalid_nonqual (row : Nat) (it : item)
    (tbl : Nat → parsetable_item) (hla : ∀ la ∈ it.lookahead, la < AST_INVALID)
    (h : ¬ null_reduce_item it) :
    reduce_item_writes row it tbl (row + AST_INVALID) = tbl (row + AST_INVALID) := by
  unfold reduce_item_writes
  by_cases hc : item_completed it
  · have hn : ¬ it.lookahead = [] := fun he => h ⟨hc, he⟩
    rw [if_pos hc, if_neg hn]
    exact lookahead_writes_ne _ _ _ _ _
      (fun la hm he => by have := hla la hm; omega)
  · rw [if_neg hc]

theorem reduce_fold_no_qual (row : Nat) (items : List item)
    (tbl : Nat → parsetable_item)
    (hla : ∀ it ∈ items, ∀ la ∈ it.lookahead, la < AST_INVALID)
    (hnq : ∀ it ∈ items, ¬ null_reduce_item it) :
    (items.foldl (fun t it => reduce_item_writes row it t) tbl) (row + AST_INVALID) =
      tbl (row + AST_INVALID) := by
  induction items generalizing tbl with
  | nil => rfl
  | cons it its ih =>
    rw [List.foldl_cons,
      ih _ (fun it2 h2 => hla it2 (List.mem_cons_of_mem it h2))
        (fun it2 h2 => hnq it2 (List.mem_cons_of_mem it h2)),
      reduce_item_at_invalid_nonqual row it tbl
        (hla it (List.mem_cons_self it its)) (hnq it (List.mem_cons_self it its))]

/-- The reduce pass of a row: when the item list holds a NULL-lookahead
completed item, the AST_INVALID cell ends with the reduce flag set and the
rule of one such item. -/
theorem reduce_fold_at_invalid (row : Nat) (items : List item)
    (tbl : Nat → parsetable_item)
    (hla : ∀ it ∈ items, ∀ la ∈ it.lookahead, la < AST_INVALID)
    (hex : ∃ it ∈ items, null_reduce_item it) :
    ((items.foldl (fun t it => reduce_item_writes row it t) tbl)
        (row + AST_INVALID)).reduce = true ∧
    ∃ it ∈ items, null_reduce_item it ∧
      ((items.foldl (fun t it => reduce_item_writes row it t) tbl)
        (row + AST_INVALID)).rule = it.rewrite_rule := by
  induction items generalizing tbl with
  | nil => exact absurd hex (by simp)
  | cons it its ih =>
    rw [List.foldl_cons]
    have hlat : ∀ it2 ∈ its, ∀ la ∈ it2.lookahead, la < AST_INVALID :=
      fun it2 h2 => hla it2 (List.mem_cons_of_mem it h2)
    by_cases hex2 : ∃ it2 ∈ its, null_reduce_item it2
    · obtain ⟨hr, it2, hm2, hq2, hrule⟩ := ih (reduce_item_writes row it tbl) hlat hex2
      exact ⟨hr, it2, List.mem_cons_of_mem it hm2, hq2, hrule⟩
    · have hnq : ∀ it2 ∈ its, ¬ null_reduce_item it2 := by
        intro it2 h2 hq2; exact hex2 ⟨it2, h2, hq2⟩
      have hq : null_reduce_item it := by
        obtain ⟨it0, hm0, hq0⟩ := hex
        rcases List.mem_cons.mp hm0 with he | ht
        · exact he ▸ hq0
        · exact absurd hq0 (hnq it0 ht)
      rw [reduce_fold_no_qual row its _ hlat hnq,
        reduce_item_at_invalid_qual row it tbl hq]
      exact ⟨rfl, it, List.mem_cons_self it its, hq, rfl⟩

/-- The GOTO / SHIFT pass of one row leaves every cell outside that row
unchanged. -/
theorem goto_shift_other_row (id2 : Nat) (links : List (Option Nat))
    (tbl : Nat → parsetable_item) (idx : Nat)
    (hidx : ∀ c, c < NUM_SYMBOLS → idx ≠ id2 * NUM_SYMBOLS + c) :
    goto_shift_writes (id2 * NUM_SYMBOLS) links tbl idx = tbl idx := by
  unfold goto_shift_writes
  refine foldl_inv (P := fun t : Nat → parsetable_item => t idx = tbl idx)
    _ (List.range NUM_SYMBOLS) tbl rfl ?_
  intro t j hj ht
  have hjn : j < NUM_SYMBOLS := List.mem_range.mp hj
  rcases goto_shift_step_cases links (id2 * NUM_SYMBOLS) j t with h | ⟨tgt, _, h⟩ | ⟨tgt, _, h⟩ <;>
    rw [h]
  · exact ht
  · rw [write_ne _ _ _ (hidx j hjn)]; exact ht
  · rw [write_ne _ _ _ (hidx j hjn)]; exact ht

/-- The reduce pass for one item of one row leaves every cell outside that
row unchanged (given terminal lookaheads). -/
theorem reduce_item_other_row (id2 : Nat) (it : item)
    (tbl : Nat → parsetable_item) (idx : Nat)
    (hla : ∀ la ∈ it.lookahead, la < AST_INVALID)
    (hidx : ∀ c, c < NUM_SYMBOLS → idx ≠ id2 * NUM_SYMBOLS + c) :
    reduce_item_writes (id2 * NUM_SYMBOLS) it tbl idx = tbl idx := by
  unfold reduce_item_writes
  have hlaw : ∀ (t : Nat → parsetable_item),
      lookahead_writes (id2 * NUM_SYMBOLS) it.rewrite_rule it.lookahead t idx = t idx :=
    fun t => lookahead_writes_ne _ _ _ _ _
      (fun la hm => hidx la (lt_trans (hla la hm) invalid_lt_num))
  by_cases hc : item_completed it
  · rw [if_pos hc]
    by_cases hn : it.lookahead = []
    · rw [if_pos hn, write_ne _ _ _ (hidx AST_INVALID invalid_lt_num), hlaw]
    · rw [if_neg hn, hlaw]
  · rw [if_neg hc]

/-- Processing a state with another identifier leaves a row's AST_INVALID
cell unchanged. -/
theorem process_state_other (st2 : state) (id : Nat) (tbl : Nat → parsetable_item)
    (hla2 : ∀ it ∈ st2.items, ∀ la ∈ it.lookahead, la < AST_INVALID)
    (hne : st2.identifier ≠ id) :
    process_state tbl st2 (id * NUM_SYMBOLS + AST_INVALID) =
      tbl (id * NUM_SYMBOLS + AST_INVALID) := by
  have hidx : ∀ c, c < NUM_SYMBOLS →
      id * NUM_SYMBOLS + AST_INVALID ≠ st2.identifier * NUM_SYMBOLS + c := by
    intro c hc h
    exact hne ((flat_index_inj invalid_lt_num hc h).1).symm
  unfold process_state
  have hfold : ∀ (its : List item) (t : Nat → parsetable_item),
      (∀ it ∈ its, ∀ la ∈ it.lookahead, la < AST_INVALID) →
      (its.foldl (fun t it => reduce_item_writes (st2.identifier * NUM_SYMBOLS) it t) t)
          (id * NUM_SYMBOLS + AST_INVALID) =
        t (id * NUM_SYMBOLS + AST_INVALID) := by
    intro its
    induction its with
    | nil => intro t _; rfl
    | cons it its ih =>
      intro t hla
      rw [List.foldl_cons, ih _ (fun it2 h2 => hla it2 (List.mem_cons_of_mem it h2)),
        reduce_item_other_row _ _ _ _ (hla it (List.mem_cons_self it its)) hidx]
  rw [hfold _ _ hla2, goto_shift_other_row _ _ _ _ hidx]

/-! ### The state machine generator (parser.c) -/

/-- items_contains: whether the item list holds an item with this rule,
this cursor and a set-equal lookahead. -/
def items_contains (items : List item) (r : Nat) (pos : Nat) (la : List Nat) : Bool :=
  items.any (fun i =>
    i.rewrite_rule == r && i.cursor_position == pos && list_equal i.lookahead la)

/-- generate_items: append the closure items of a production node under a
lookahead, recursing on a body-initial non-terminal (under the head
terminals of the follow symbol when one exists, else the same lookahead).
Fuel-structural like head_terminal_values; the inner head_terminal_values
fuel 100 exceeds any recursion depth over this grammar. -/
def generate_items : Nat → Nat → List Nat → List item → Option (List item)
  | 0, _, _, _ => none
  | fuel + 1, node, lookahead, items =>
    grammar.enum.foldl
      (fun acc ir =>
        match acc with
        | none => none
        | some items =>
          if ir.2.type == node && !(items_contains items ir.1 0 lookahead) then
            if ir.2.nodes.headD 0 > AST_INVALID then
              if ir.2.nodes.length > 1 then
                match head_terminal_values 100 (ir.2.nodes.getD 1 0) [] [] with
                | none => none
                | some p =>
                  generate_items fuel (ir.2.nodes.headD 0) p.2
                    (items ++ [⟨ir.1, 0, lookahead⟩])
              else
                generate_items fuel (ir.2.nodes.headD 0) lookahead
                  (items ++ [⟨ir.1, 0, lookahead⟩])
            else some (items ++ [⟨ir.1, 0, lookahead⟩])
          else some items)
      (some items)

/-- state_contains_item over an item list: same rule (pointer = index), same
cursor, set-equal lookahead. -/
def state_contains_item (items : List item) (it : item) : Bool :=
  items.any (fun i =>
    it.rewrite_rule == i.rewrite_rule && it.cursor_position == i.cursor_position &&
    list_equal it.lookahead i.lookahead)

/-- compare_states as the predicate `compare_states(a, b) == 0`: mutual
containment of the item lists (the C's two loops; only the zero result is
ever consulted). -/
def states_equal (a b : List item) : Bool :=
  a.all (fun it => state_contains_item b it) &&
  b.all (fun it => state_contains_item a it)

def index_of_state_aux (cand : List item) : Nat → List state → Option Nat
  | _, [] => none
  | i, st :: rest =>
    if states_equal cand st.items then some i else index_of_state_aux cand (i + 1) rest

/-- index_of_state: the first global state whose item set equals the
candidate's, or none. -/
def index_of_state (sts : List state) (cand : List item) : Option Nat :=
  index_of_state_aux cand 0 sts

/-- Update one candidate slot of the per-symbol candidate store. -/
def upd_cand (cands : Nat → Option (List item)) (idx : Nat) (v : List item) :
    Nat → Option (List item) :=
  fun k => if k = idx then some v else cands k

/-- The first pass of generate_transitions: fold over the state's items in
order; every item with the cursor inside the body contributes its advanced
item (if not already present) and, for a body-initial non-terminal at the
new cursor, the closure items, to the candidate successor of the symbol at
the cursor. -/
def build_candidates (gfuel : Nat) :
    List item → (Nat → Option (List item)) → Option (Nat → Option (List item))
  | [], cands => some cands
  | it :: restItems, cands =>
    if it.cursor_position < rule_len it.rewrite_rule then
      if items_contains (((cands ((grammar.getD it.rewrite_rule null_rule).nodes.getD
            it.cursor_position 0))).getD [])
          it.rewrite_rule (it.cursor_position + 1) it.lookahead then
        build_candidates gfuel restItems cands
      else
        if it.cursor_position + 1 < rule_len it.rewrite_rule &&
            (grammar.getD it.rewrite_rule null_rule).nodes.getD (it.cursor_position + 1) 0
              > AST_INVALID then
          if it.cursor_position + 2 < rule_len it.rewrite_rule then
            match head_terminal_values 100
                ((grammar.getD it.rewrite_rule null_rule).nodes.getD
                  (it.cursor_position + 2) 0) [] [] with
            | none => none
            | some p =>
              match generate_items gfuel
                  ((grammar.getD it.rewrite_rule null_rule).nodes.getD
                    (it.cursor_position + 1) 0) p.2
                  ((((cands ((grammar.getD it.rewrite_rule null_rule).nodes.getD
                      it.cursor_position 0))).getD []) ++
                    [⟨it.rewrite_rule, it.cursor_position + 1, it.lookahead⟩]) with
              | none => none
              | some cur3 =>
                build_candidates gfuel restItems
                  (upd_cand cands ((grammar.getD it.rewrite_rule null_rule).nodes.getD
                    it.cursor_position 0) cur3)
          else
            match generate_items gfuel
                ((grammar.getD it.rewrite_rule null_rule).nodes.getD
                  (it.cursor_position + 1) 0) it.lookahead
                ((((cands ((grammar.getD it.rewrite_rule null_rule).nodes.getD
                    it.cursor_position 0))).getD []) ++
                  [⟨it.rewrite_rule, it.cursor_position + 1, it.lookahead⟩]) with
            | none => none
            | some cur3 =>
              build_candidates gfuel restItems
                (upd_cand cands ((grammar.getD it.rewrite_rule null_rule).nodes.getD
                  it.cursor_position 0) cur3)
        else
          build_candidates gfuel restItems
            (upd_cand cands ((grammar.getD it.rewrite_rule null_rule).nodes.getD
              it.cursor_position 0)
              ((((cands ((grammar.getD it.rewrite_rule null_rule).nodes.getD
                  it.cursor_position 0))).getD []) ++
                [⟨it.rewrite_rule, it.cursor_position + 1, it.lookahead⟩]))
    else build_candidates gfuel restItems cands

/-- Record a transition: set the link of state sid at symbol j to the
identifier v (the C writes the identifier through the link pointer). -/
def set_link (sts : List state) (sid : Nat) (j : Nat) (v : Nat) : List state :=
  match sts.get? sid with
  | none => sts
  | some st => sts.set sid {st with links := st.links.set j (some v)}

/-- One slot of the second pass of generate_transitions: no candidate means
no transition; a candidate equal to an existing state links to it and adds
nothing; otherwise the candidate becomes a new state (fresh identifier =
current count), the link is recorded, and `rec` descends into the new
state. -/
def gt_step (rec : List state → Nat → Option (List state)) (sid : Nat)
    (cands : Nat → Option (List item)) (sts2 : List state) (j : Nat) :
    Option (List state) :=
  match cands j with
  | none => some sts2
  | some citems =>
    match index_of_state sts2 citems with
    | some existing => some (set_link sts2 sid j existing)
    | none =>
      match rec (set_link sts2 sid j sts2.length ++
          [⟨sts2.length, citems, List.replicate NUM_SYMBOLS none⟩]) sts2.length with
      | none => none
      | some sts3 => some sts3

/-- The accumulator plumbing of the second pass (a failed recursion aborts
the whole fold). -/
def gt_fold_step (rec : List state → Nat → Option (List state)) (sid : Nat)
    (cands : Nat → Option (List item)) (acc : Option (List state)) (j : Nat) :
    Option (List state) :=
  match acc with
  | none => none
  | some sts2 => gt_step rec sid cands sts2 j

/-- generate_transitions: build state sid's candidate successors, then walk
the symbols in order, deduplicating against the global state list and
recursing into each newly created state.  Fuel bounds the recursion depth
(the C bounds it by MAX_STATES). -/
def generate_transitions : Nat → List state → Nat → Option (List state)
  | 0, _, _ => none
  | fuel + 1, sts, sid =>
    match sts.get? sid with
    | none => none
    | some s =>
      match build_candidates (fuel + 1) s.items (fun _ => none) with
      | none => none
      | some cands =>
        (List.range NUM_SYMBOLS).foldl
          (gt_fold_step (fun a b => generate_transitions fuel a b) sid cands)
          (some sts)

/-- generate_states: state 0 holds the items generated from the start
symbol with the NULL lookahead; the automaton grows from it. -/
def generate_states (fuel : Nat) : Option (List state) :=
  match generate_items 100 AST_TRANSLATION_UNIT [] [] with
  | none => none
  | some items0 =>
    generate_transitions fuel [⟨0, items0, List.replicate NUM_SYMBOLS none⟩] 0

/-- C6: in the parse table built by init_parsetable, for every state and
every completed item of that state whose lookahead set is empty (NULL, the
end-of-input sentinel), the cell at the AST_INVALID column has the reduce
flag set and carries the rule of such an item, and no AST_INVALID column of
any row ever holds a SHIFT.  The hypotheses state what holds of the real
automaton: state identifiers are pairwise distinct and lookaheads hold only
terminals. -/
theorem init_parsetable_invalid_column (sts : List state)
    (hnodup : (sts.map state.identifier).Nodup)
    (hla : ∀ st ∈ sts, ∀ it ∈ st.items, ∀ la ∈ it.lookahead, la < AST_INVALID)
    (st : state) (hst : st ∈ sts) (it : item) (hit : it ∈ st.items)
    (hcomp : item_completed it) (hnull : it.lookahead = []) :
    ((init_parsetable sts) (st.identifier * NUM_SYMBOLS + AST_INVALID)).reduce = true ∧
    (∃ it2 ∈ st.items, item_completed it2 ∧ it2.lookahead = [] ∧
      ((init_parsetable sts) (st.identifier * NUM_SYMBOLS + AST_INVALID)).rule =
        it2.rewrite_rule) ∧
    (∀ s : Nat, ((init_parsetable sts) (s * NUM_SYMBOLS + AST_INVALID)).shift = false) := by
  obtain ⟨l1, l2, rfl⟩ := List.append_of_mem hst
  have hnotin : st.identifier ∉ l2.map state.identifier := by
    have hm : ((l1 ++ st :: l2).map state.identifier) =
        l1.map state.identifier ++ st.identifier :: l2.map state.identifier := by simp
    rw [hm] at hnodup
    exact (List.nodup_cons.mp hnodup.of_append_right).1
  have hstmem : st ∈ l1 ++ st :: l2 :=
    List.mem_append_right l1 (List.mem_cons_self st l2)
  have hfold : init_parsetable (l1 ++ st :: l2) =
      List.foldl process_state
        (process_state (List.foldl process_state (fun _ => {}) l1) st) l2 := by
    unfold init_parsetable
    rw [List.foldl_append, List.foldl_cons]
  have hmid := reduce_fold_at_invalid (st.identifier * NUM_SYMBOLS) st.items
    (goto_shift_writes (st.identifier * NUM_SYMBOLS) st.links
      (List.foldl process_state (fun _ => {}) l1))
    (hla st hstmem) ⟨it, hit, hcomp, hnull⟩
  have hsame : (init_parsetable (l1 ++ st :: l2))
      (st.identifier * NUM_SYMBOLS + AST_INVALID) =
      (process_state (List.foldl process_state (fun _ => {}) l1) st)
        (st.identifier * NUM_SYMBOLS + AST_INVALID) := by
    rw [hfold]
    refine foldl_inv
      (P := fun t : Nat → parsetable_item =>
        t (st.identifier * NUM_SYMBOLS + AST_INVALID) =
        (process_state (List.foldl process_state (fun _ => {}) l1) st)
          (st.identifier * NUM_SYMBOLS + AST_INVALID)) _ l2 _ rfl ?_
    intro t st2 hm2 ht
    rw [process_state_other st2 st.identifier t
      (hla st2 (List.mem_append_right l1 (List.mem_cons_of_mem st hm2)))
      (fun he => hnotin (he ▸ List.mem_map_of_mem state.identifier hm2))]
    exact ht
  have hmid2 : (process_state (List.foldl process_state (fun _ => {}) l1) st)
      (st.identifier * NUM_SYMBOLS + AST_INVALID) =
      ((st.items.foldl
        (fun t it => reduce_item_writes (st.identifier * NUM_SYMBOLS) it t)
        (goto_shift_writes (st.identifier * NUM_SYMBOLS) st.links
          (List.foldl process_state (fun _ => {}) l1)))
        (st.identifier * NUM_SYMBOLS + AST_INVALID)) := rfl
  refine ⟨?_, ?_, fun s => init_parsetable_no_shift_at_invalid _ s⟩
  · rw [hsame, hmid2]; exact hmid.1
  · rw [hsame, hmid2]
    obtain ⟨it2, hm2, hq2, hr2⟩ := hmid.2
    exact ⟨it2, hm2, hq2.1, hq2.2, hr2⟩

/-- A one-state automaton whose single item is the completed start rule with
the NULL lookahead: the concrete instance for the theorem above. -/
def demo_state : state := ⟨0, [⟨0, 1, []⟩], List.replicate NUM_SYMBOLS none⟩

def demo_states : List state := [demo_state]

/-- Witness for C6 at a concrete automaton. -/
theorem init_parsetable_invalid_column_witness :
    ((init_parsetable demo_states)
        (demo_state.identifier * NUM_SYMBOLS + AST_INVALID)).reduce = true ∧
    (∃ it2 ∈ demo_state.items, item_completed it2 ∧ it2.lookahead = [] ∧
      ((init_parsetable demo_states)
        (demo_state.identifier * NUM_SYMBOLS + AST_INVALID)).rule = it2.rewrite_rule) ∧
    (∀ s : Nat, ((init_parsetable demo_states)
        (s * NUM_SYMBOLS + AST_INVALID)).shift = false) :=
  init_parsetable_invalid_column demo_states (by decide)
    (by intro st hst it hit la hla
        simp [demo_states, demo_state] at hst
        subst hst
        simp [demo_state] at hit
        subst hit
        simp at hla)
    demo_state (by simp [demo_states]) ⟨0, 1, []⟩ (by simp [demo_state])
    (by decide) rfl

/-- C10: the adapter maps TOK_EOF to the sentinel AST_INVALID, the driver
therefore consults exactly the AST_INVALID column for the end-of-input
token, the empty-lookahead reduce items are stored in that same column, and
in any init_parsetable-built table that column never carries a shift, so
the end-of-input token is never shifted into an AST leaf. -/
theorem token_to_astnode_eof_invalid_column :
    (∀ v, token_to_astnode ⟨Tok.TOK_EOF, v⟩ =
      some ⟨AST_INVALID, [], some ⟨Tok.TOK_EOF, v⟩⟩) ∧
    (∀ (tbl : Nat → parsetable_item) (s : Nat) (v : Option (List Char)),
      (token_to_astnode ⟨Tok.TOK_EOF, v⟩).map (fun nd => cellAt tbl s nd.type) =
        some (tbl (s * NUM_SYMBOLS + AST_INVALID))) ∧
    (∀ (row : Nat) (it : item) (tbl : Nat → parsetable_item),
      null_reduce_item it →
      (reduce_item_writes row it tbl (row + AST_INVALID)).reduce = true) ∧
    (∀ (sts : List state) (s : Nat) (v : Option (List Char)),
      (token_to_astnode ⟨Tok.TOK_EOF, v⟩).map
          (fun nd => (cellAt (init_parsetable sts) s nd.type).shift) =
        some false) := by
  refine ⟨fun v => rfl, fun tbl s v => rfl, ?_, ?_⟩
  · intro row it tbl hq
    rw [reduce_item_at_invalid_qual row it tbl hq]
  · intro sts s v
    show some ((cellAt (init_parsetable sts) s AST_INVALID).shift) = some false
    rw [show cellAt (init_parsetable sts) s AST_INVALID =
      (init_parsetable sts) (s * NUM_SYMBOLS + AST_INVALID) from rfl]
    rw [init_parsetable_no_shift_at_invalid]

/-- C1: the reduce loop of parse, popping 2·|body| entries off an
alternating stack, collects exactly the state-id halves of the popped pairs
(in pop order) as the new node's children — never the AST-node halves. -/
theorem reduce_pop_children_are_states (pairs : List (Nat × astnode))
    (rest : List entry) (n : Nat) (hn : n ≤ pairs.length) :
    reduce_pop ((pairs.flatMap fun p => [entry.state p.1, entry.nd p.2]) ++ rest) n =
      some ((pairs.take n).map (fun p => entry.state p.1),
        ((pairs.drop n).flatMap fun p => [entry.state p.1, entry.nd p.2]) ++ rest) := by
  induction n generalizing pairs with
  | zero => simp [reduce_pop]
  | succ n ih =>
    cases pairs with
    | nil => exact absurd hn (by simp)
    | cons p ps =>
      have h1 : ((p :: ps).flatMap fun p => [entry.state p.1, entry.nd p.2]) ++ rest =
          entry.state p.1 :: entry.nd p.2 ::
            ((ps.flatMap fun p => [entry.state p.1, entry.nd p.2]) ++ rest) := by
        simp
      rw [h1]
      show (reduce_pop ((ps.flatMap fun p => [entry.state p.1, entry.nd p.2]) ++ rest) n).map
          (fun q => (entry.state p.1 :: q.1, q.2)) = _
      rw [ih ps (Nat.le_of_succ_le_succ hn)]
      rfl

def demo_leaf : astnode := ⟨AST_IDENTIFIER, [], none⟩

/-- Witness for C1's reduce-loop theorem at a concrete stack. -/
theorem reduce_pop_children_are_states_witness :
    reduce_pop [entry.state 5, entry.nd demo_leaf, entry.state 0] 1 =
      some ([entry.state 5], [entry.state 0]) :=
  reduce_pop_children_are_states [(5, demo_leaf)] [entry.state 0] 1 (by decide)

/-- C2: when the first consulted cell is empty (neither shift nor reduce)
and the current token is not the last one, parse runs
`assert(token->next == NULL)`, which fails: the run aborts instead of
reporting an `unexpected token` error as a result value. -/
theorem parse_empty_cell_asserts (tbl : Nat → parsetable_item) (t : Token)
    (rest : List Token) (fuel : Nat) (nd : astnode)
    (h1 : token_to_astnode t = some nd)
    (h2 : (cellAt tbl 0 nd.type).shift = false)
    (h3 : (cellAt tbl 0 nd.type).reduce = false)
    (h4 : rest ≠ []) :
    parse tbl (t :: rest) (fuel + 1) = some presult.assertFail := by
  have hstep : parse_step tbl [entry.state 0] none (t :: rest) =
      stepOut.halt presult.assertFail := by
    cases rest with
    | nil => exact absurd rfl h4
    | cons r rs =>
      simp only [parse_step, topState, h1, h2, h3, Bool.false_eq_true, if_false]
  unfold parse parseFuel
  rw [hstep]

/-- Witness for C2 at the empty table and the token list for `";"`. -/
theorem parse_empty_cell_asserts_witness :
    parse (fun _ => {}) [⟨Tok.TOK_SEMICOLON, none⟩, ⟨Tok.TOK_EOF, none⟩] 1 =
      some presult.assertFail :=
  parse_empty_cell_asserts (fun _ => {}) ⟨Tok.TOK_SEMICOLON, none⟩
    [⟨Tok.TOK_EOF, none⟩] 0 ⟨AST_SEMICOLON, [], some ⟨Tok.TOK_SEMICOLON, none⟩⟩
    rfl rfl rfl (by simp)

/-- C3: the scanner produces TOK_ARROW (here from the two-character input
`->`), and token_to_astnode has no branch for it: the adapter returns the
uninitialized node (modelled none) instead of an AST_ARROW leaf. -/
theorem token_to_astnode_misses_arrow :
    scan [Char.ofNat 45, Char.ofNat 62] =
      some [⟨Tok.TOK_ARROW, none⟩, ⟨Tok.TOK_EOF, none⟩] ∧
    token_to_astnode ⟨Tok.TOK_ARROW, none⟩ = none :=
  ⟨by decide!, rfl⟩

/-- C4: on the one-character input `~` no branch of the scan loop body
matches and the position is not advanced, so the loop never exits: scan_loop
returns none (no exit) for every fuel. -/
theorem scan_diverges_on_tilde :
    ∀ (fuel : Nat) (acc : List Token), scan_loop fuel [Char.ofNat 126] 0 acc = none := by
  intro fuel
  induction fuel with
  | zero => intro acc; rfl
  | succ n ih =>
    intro acc
    have hstep : scan_step [Char.ofNat 126] 0 = (0, []) := by decide
    show (if 0 < ([Char.ofNat 126] : List Char).length then
        scan_loop n [Char.ofNat 126] (scan_step [Char.ofNat 126] 0).1
          (acc ++ (scan_step [Char.ofNat 126] 0).2)
      else some acc) = none
    rw [if_pos (by decide), hstep, List.append_nil]
    exact ih acc

/-- C5 counterexample: head_terminal_values on the non-terminal `pointer`
(four rules, every body beginning with the terminal `*`) returns the
asterisk four times — the result is not duplicate-free. -/
theorem head_terminal_values_pointer_duplicates :
    head_terminal_values 100 AST_POINTER [] [] =
      some ([AST_POINTER], [AST_ASTERISK, AST_ASTERISK, AST_ASTERISK, AST_ASTERISK]) ∧
    ¬ ([AST_ASTERISK, AST_ASTERISK, AST_ASTERISK, AST_ASTERISK] : List Nat).Nodup :=
  ⟨by decide!, by decide⟩

/-- Whether, for one symbol, the terminals list computed by
head_terminal_values has the same element set as the spec-worded FIRST
definition (and is exactly the one-element list for a terminal). -/
def head_terminals_agree (n : Nat) : Bool :=
  let code := ((head_terminal_values 100 n [] []).map Prod.snd).getD [NUM_SYMBOLS]
  let specv := spec_head_terminals 100 [] n
  code.all (fun x => specv.contains x) && specv.all (fun x => code.contains x) &&
  (!(decide (n < AST_INVALID)) || code == [n])

theorem head_terminals_agree_chunk0 :
    ((List.range' 0 73).all head_terminals_agree) = true := by decide!

theorem head_terminals_agree_chunk1 :
    ((List.range' 73 15).all head_terminals_agree) = true := by decide!

theorem head_terminals_agree_chunk2 :
    ((List.range' 88 16).all head_terminals_agree) = true := by decide!

theorem head_terminals_agree_chunk3 :
    ((List.range' 104 15).all head_terminals_agree) = true := by decide!

theorem head_terminals_agree_chunk4 :
    ((List.range' 119 15).all head_terminals_agree) = true := by decide!

/-- C5 amended: for every symbol of the enum, the terminals list
head_terminal_values returns — possibly with duplicates — has exactly the
element set of the spec's FIRST definition (union over the rules of the head
terminals of each body's first symbol, skipping the self-left-recursive
case), and for a terminal input it is exactly that one terminal. -/
theorem head_terminal_values_set_correct :
    ((List.range NUM_SYMBOLS).all head_terminals_agree) = true := by
  have hsplit : List.range NUM_SYMBOLS =
      List.range' 0 73 ++ (List.range' 73 15 ++ (List.range' 88 16 ++
        (List.range' 104 15 ++ List.range' 119 15))) := by decide
  rw [hsplit]
  simp only [List.all_append, head_terminals_agree_chunk0,
    head_terminals_agree_chunk1, head_terminals_agree_chunk2,
    head_terminals_agree_chunk3, head_terminals_agree_chunk4,
    Bool.and_self]

/-! ### No two states of the automaton have equal item sets (C7) -/

theorem states_equal_symm (a b : List item) : states_equal a b = states_equal b a := by
  unfold states_equal
  exact Bool.and_comm _ _

/-- The distinctness invariant: pairwise, no two states' item sets are
set-equal (compare_states on them is non-zero). -/
def states_distinct (sts : List state) : Prop :=
  List.Pairwise (fun a b => states_equal a b = false) (sts.map state.items)

theorem index_of_state_aux_none (cand : List item) :
    ∀ (i : Nat) (l : List state), index_of_state_aux cand i l = none →
      ∀ st ∈ l, states_equal cand st.items = false := by
  intro i l
  induction l generalizing i with
  | nil => intro _ st hst; exact absurd hst (by simp)
  | cons st0 rest ih =>
    intro h st hst
    unfold index_of_state_aux at h
    by_cases he : states_equal cand st0.items = true
    · rw [if_pos he] at h; exact absurd h (by simp)
    · rw [if_neg he] at h
      rcases List.mem_cons.mp hst with rfl | hmem
      · exact Bool.not_eq_true _ ▸ (Bool.eq_false_iff.mpr (fun hx => he hx))
      · exact ih (i + 1) h st hmem

theorem index_of_state_none (sts : List state) (cand : List item)
    (h : index_of_state sts cand = none) :
    ∀ st ∈ sts, states_equal cand st.items = false :=
  index_of_state_aux_none cand 0 sts h

theorem index_of_state_aux_some (cand : List item) :
    ∀ (l : List state) (i k : Nat), index_of_state_aux cand i l = some k →
      i ≤ k ∧ ∃ st, l.get? (k - i) = some st ∧ states_equal cand st.items = true := by
  intro l
  induction l with
  | nil => intro i k h; exact absurd h (by simp [index_of_state_aux])
  | cons st0 rest ih =>
    intro i k h
    unfold index_of_state_aux at h
    by_cases he : states_equal cand st0.items = true
    · rw [if_pos he] at h
      have hk : i = k := by simpa using h
      subst hk
      exact ⟨Nat.le_refl i, st0, by simp, he⟩
    · rw [if_neg he] at h
      obtain ⟨hle, st, hget, heq⟩ := ih (i + 1) k h
      refine ⟨Nat.le_of_succ_le hle, st, ?_, heq⟩
      have : k - i = (k - (i + 1)) + 1 := by omega
      rw [this]
      simpa using hget

/-- index_of_state finds a state whose item set equals the candidate's. -/
theorem index_of_state_some (sts : List state) (cand : List item) (k : Nat)
    (h : index_of_state sts cand = some k) :
    ∃ st, sts.get? k = some st ∧ states_equal cand st.items = true := by
  obtain ⟨_, st, hget, heq⟩ := index_of_state_aux_some cand sts 0 k h
  exact ⟨st, by simpa using hget, heq⟩

theorem set_same {α : Type _} : ∀ (l : List α) (n : Nat) (a : α),
    l.get? n = some a → l.set n a = l := by
  intro l
  induction l with
  | nil => intro n a h; simp at h
  | cons x xs ih =>
    intro n a h
    cases n with
    | zero => simp at h; simp [h]
    | succ m =>
      simp only [List.get?_cons_succ] at h
      simp [List.set_cons_succ, ih m a h]

/-- Recording a link changes no state's item set. -/
theorem set_link_items (sts : List state) (sid j v : Nat) :
    (set_link sts sid j v).map state.items = sts.map state.items := by
  unfold set_link
  cases hget : sts.get? sid with
  | none => rfl
  | some st =>
    rw [List.map_set]
    refine set_same _ _ _ ?_
    rw [List.get?_map, hget]
    rfl

theorem states_distinct_set_link (sts : List state) (sid j v : Nat)
    (h : states_distinct sts) : states_distinct (set_link sts sid j v) := by
  unfold states_distinct
  rw [set_link_items]
  exact h

/-- Appending a candidate that equals no existing state keeps the item sets
pairwise distinct. -/
theorem states_distinct_append_new (sts : List state) (citems : List item)
    (idv : Nat) (links : List (Option Nat)) (h : states_distinct sts)
    (hnone : index_of_state sts citems = none) :
    states_distinct (sts ++ [⟨idv, citems, links⟩]) := by
  unfold states_distinct
  rw [List.map_append]
  refine List.pairwise_append.mpr ⟨h, List.pairwise_singleton _ _, ?_⟩
  intro a ha b hb
  obtain ⟨st, hstmem, rfl⟩ := List.mem_map.mp ha
  have hbv : b = citems := by simpa using hb
  rw [hbv, states_equal_symm st.items citems]
  exact index_of_state_none sts citems hnone st hstmem

/-- The invariant propagates through generate_transitions: every state list
the generator returns keeps item sets pairwise distinct. -/
theorem generate_transitions_distinct :
    ∀ (fuel : Nat) (sts : List state) (sid : Nat) (out : List state),
      states_distinct sts → generate_transitions fuel sts sid = some out →
      states_distinct out := by
  intro fuel
  induction fuel with
  | zero =>
    intro sts sid out _ h
    exact absurd h (by simp [generate_transitions])
  | succ fuel ih =>
    intro sts sid out hInv h
    rw [generate_transitions] at h
    split at h
    · exact absurd h (by simp)
    · split at h
      · exact absurd h (by simp)
      · rename_i cands hbc
        refine foldl_inv
          (P := fun acc : Option (List state) =>
            ∀ o, acc = some o → states_distinct o)
          _ (List.range NUM_SYMBOLS) (some sts)
          (fun o ho => by cases ho; exact hInv) ?_ out h
        intro acc j _ hP o ho
        cases acc with
        | none => simp [gt_fold_step] at ho
        | some sts2 =>
          have hInv2 := hP sts2 rfl
          have hred : gt_fold_step
              (fun a b => generate_transitions fuel a b) sid cands (some sts2) j =
              gt_step (fun a b => generate_transitions fuel a b) sid cands sts2 j := rfl
          rw [hred] at ho
          unfold gt_step at ho
          split at ho
          · cases ho; exact hInv2
          · rename_i citems hc
            split at ho
            · rename_i existing hidx
              cases ho
              exact states_distinct_set_link _ _ _ _ hInv2
            · rename_i hidx
              split at ho
              · exact absurd ho (by simp)
              · rename_i sts3 hrec
                cases ho
                refine ih _ _ _ ?_ hrec
                have hd1 : states_distinct (set_link sts2 sid j sts2.length) :=
                  states_distinct_set_link _ _ _ _ hInv2
                have hnone2 : index_of_state (set_link sts2 sid j sts2.length) citems
                    = none := by
                  cases hidx2 : index_of_state (set_link sts2 sid j sts2.length)
                      citems with
                  | none => rfl
                  | some k =>
                    obtain ⟨st, hgk, heqk⟩ := index_of_state_some _ _ _ hidx2
                    have hm : st.items ∈ (set_link sts2 sid j sts2.length).map
                        state.items :=
                      List.mem_map_of_mem state.items (List.get?_mem hgk)
                    rw [set_link_items] at hm
                    obtain ⟨st2, hm2, hit2⟩ := List.mem_map.mp hm
                    have hz := index_of_state_none sts2 citems hidx st2 hm2
                    rw [hit2, heqk] at hz
                    exact absurd hz (by simp)
                exact states_distinct_append_new _ _ _ _ hd1 hnone2

/-- C7: after generate_states completes, no two states of the automaton
have set-equal item sets; a candidate successor equal to an existing state
makes the step record the transition to that state (the first one with an
identical item set) and create no new state. -/
theorem generate_states_no_duplicate_states :
    (∀ (fuel : Nat) (out : List state),
      generate_states fuel = some out → states_distinct out) ∧
    (∀ (fuel : Nat) (sts : List state) (sid : Nat) (out : List state),
      states_distinct sts → generate_transitions fuel sts sid = some out →
      states_distinct out) ∧
    (∀ (rec : List state → Nat → Option (List state)) (sid : Nat)
      (cands : Nat → Option (List item)) (sts2 : List state)
      (citems : List item) (existing j : Nat),
      cands j = some citems → index_of_state sts2 citems = some existing →
      gt_step rec sid cands sts2 j = some (set_link sts2 sid j existing)) ∧
    (∀ (sts : List state) (cand : List item) (k : Nat),
      index_of_state sts cand = some k →
      ∃ st, sts.get? k = some st ∧ states_equal cand st.items = true) := by
  refine ⟨?_, generate_transitions_distinct, ?_, index_of_state_some⟩
  · intro fuel out h
    unfold generate_states at h
    cases hgi : generate_items 100 AST_TRANSLATION_UNIT [] [] with
    | none => rw [hgi] at h; exact absurd h (by simp)
    | some items0 =>
      rw [hgi] at h
      refine generate_transitions_distinct fuel _ 0 out ?_ h
      unfold states_distinct
      simp
  · intro rec sid cands sts2 citems existing j hc hidx
    unfold gt_step
    simp only [hc, hidx]

/-- C9: the embedded parse is a function of the table and the token list
alone: runs on equal token sequences return equal results (the C's
sequential driver has no other input; determinism is definitional in the
embedding). -/
theorem parse_deterministic (tbl : Nat → parsetable_item) (fuel : Nat)
    (t1 t2 : List Token) (h : t1 = t2) : parse tbl t1 fuel = parse tbl t2 fuel := by
  rw [h]

/-- Witness for C9 at a concrete run. -/
theorem parse_deterministic_witness :
    parse (fun _ => {}) [⟨Tok.TOK_EOF, none⟩] 1 =
      parse (fun _ => {}) [⟨Tok.TOK_EOF, none⟩] 1 :=
  parse_deterministic (fun _ => {}) 1 [⟨Tok.TOK_EOF, none⟩] [⟨Tok.TOK_EOF, none⟩] rfl

end Scc
